import Mathlib

/-!
# analogComp: the analog comparator driver

A shallow embedding of `src/analogComp.cpp` (the driver of the on-chip analog
comparator of AVR microcontrollers) and the properties of its lifecycle state
machine.

* The special function registers and the driver's global variables form the
  record `State`; every driver function is a function on `State`.
* Registers are 8 bits wide: they are natural numbers and every write reduces
  modulo `256`.
* `analogComp.h` and the headers of the toolchain give the bit numbers, the
  input-selection constants and the chip family. They are the fields of `Build`;
  `atmega328p` is the build for the ATmega328P (Arduino Uno).
* `millis()` and the reads of `ACSR` in the polling loop of `waitComp` are
  inputs of the environment: the record `Env` lists the values they return.
-/

namespace AnalogComp

/-! ## Build configuration -/

/-- Chip families: the preprocessor symbols tested in `analogComp.cpp`. -/
inductive Family
  | ATMEGAx8
  | ATMEGAx0
  | ATMEGAx4
  | ATMEGAxU
  | ATTINYx5
  | ATTINYx4
  | ATTINYx313
deriving DecidableEq

/-- The constants that `analogComp.cpp` takes from its headers: the chip family
and `NUM_ANALOG_INPUTS`, the input-selection values `AIN0`, `AIN1` and
`INTERNAL_REFERENCE`, the edge modes `CHANGE` and `FALLING`, and the bit numbers
of the registers. -/
structure Build where
  family : Family
  NUM_ANALOG_INPUTS : Nat
  AIN0 : Nat
  AIN1 : Nat
  INTERNAL_REFERENCE : Nat
  CHANGE : Nat
  FALLING : Nat
  ACD : Nat
  ACBG : Nat
  ACO : Nat
  ACIE : Nat
  ACIC : Nat
  ACIS1 : Nat
  ACIS0 : Nat
  ACME : Nat
  ADEN : Nat
  AIN0D : Nat
  AIN1D : Nat
  ADC1D : Nat
  ADC2D : Nat
  SREG_I : Nat
deriving DecidableEq

/-- The build for the ATmega328P: family `ATMEGAx8`, six analog inputs, the
bit numbers of its data sheet (`ACSR`: ACD 7, ACBG 6, ACO 5, ACIE 3, ACIC 2,
ACIS1 1, ACIS0 0; `ADCSRB`: ACME 6; `ADCSRA`: ADEN 7; `DIDR1`: AIN1D 1, AIN0D 0;
`SREG`: I 7), the Arduino edge modes `CHANGE = 1`, `FALLING = 2`, and the
library's `AIN0 = 0`, `INTERNAL_REFERENCE = 1`, `AIN1 = 255`. The family has no
`ADC1D`/`ADC2D` in a register the driver writes; the fields are unused there. -/
def atmega328p : Build where
  family := Family.ATMEGAx8
  NUM_ANALOG_INPUTS := 6
  AIN0 := 0
  AIN1 := 255
  INTERNAL_REFERENCE := 1
  CHANGE := 1
  FALLING := 2
  ACD := 7
  ACBG := 6
  ACO := 5
  ACIE := 3
  ACIC := 2
  ACIS1 := 1
  ACIS0 := 0
  ACME := 6
  ADEN := 7
  AIN0D := 0
  AIN1D := 1
  ADC1D := 1
  ADC2D := 2
  SREG_I := 7

/-! ## State -/

/-- A handler `void (*)(void)`, identified by its address. -/
abbrev userFunc := Nat

/-- The registers the driver touches and its global variables. `AC_REGISTER` is
the register that holds the `ACME` bit (`ADCSRB` on most families). -/
structure State where
  ACSR : Nat
  ADCSRA : Nat
  ADMUX : Nat
  AC_REGISTER : Nat
  DIDR0 : Nat
  DIDR1 : Nat
  DIDR : Nat
  SREG : Nat
  userFunction : userFunc
  _initialized : Nat
  _interruptEnabled : Nat
  oldADCSRA : Nat
  redirectTC1 : Bool
deriving DecidableEq

/-- The state after reset: every register and every global variable is zero. -/
def reset : State where
  ACSR := 0
  ADCSRA := 0
  ADMUX := 0
  AC_REGISTER := 0
  DIDR0 := 0
  DIDR1 := 0
  DIDR := 0
  SREG := 0
  userFunction := 0
  _initialized := 0
  _interruptEnabled := 0
  oldADCSRA := 0
  redirectTC1 := false

/-! ## Register arithmetic -/

/-- The statement `r |= m` on an 8-bit register. -/
def setMask (r m : Nat) : Nat := (r ||| m) % 256

/-- The statement `r &= ~m` on an 8-bit register: `~m` is a 16-bit `int`, the
result is stored in 8 bits. -/
def clearMask (r m : Nat) : Nat := (r &&& (0xFFFF ^^^ m)) % 256

/-- The C operator `&&`: `1` when both operands are non-zero, else `0`. -/
def logicalAnd (x y : Nat) : Nat := if x ≠ 0 ∧ y ≠ 0 then 1 else 0

/-- Subtraction of `unsigned long` values (32 bits). -/
def sub32 (x y : Nat) : Nat := (x % 2 ^ 32 + 2 ^ 32 - y % 2 ^ 32) % 2 ^ 32

/-- The cast `(long)` of an `unsigned long` value (two's complement, 32 bits). -/
def toLong (x : Nat) : Int := if x % 2 ^ 32 < 2 ^ 31 then (x % 2 ^ 32 : Nat) else (x % 2 ^ 32 : Nat) - 2 ^ 32

/-! ## The driver -/

/-- `analogComp::setOn`: returns the result code and the new state. The test
`tempAIN1 >= 0` of the source holds for every `uint8_t` and is left out. -/
def setOn (b : Build) (tempAIN0 tempAIN1 : Nat) (enableTC1 : Bool) (s : State) : Nat × State :=
  if s._initialized ≠ 0 then (1, s)
  else
    let s := { s with ACSR := clearMask s.ACSR (1 <<< b.ACIE) }
    let s := { s with ACSR := clearMask s.ACSR (1 <<< b.ACD) }
    let s :=
      if tempAIN0 = b.INTERNAL_REFERENCE then { s with ACSR := setMask s.ACSR (1 <<< b.ACBG) }
      else { s with ACSR := clearMask s.ACSR (1 <<< b.ACBG) }
    let tempAIN1 := if b.family = Family.ATMEGAxU ∧ tempAIN1 = b.AIN1 then 0 else tempAIN1
    let s :=
      if b.family = Family.ATTINYx313 then s
      else if tempAIN1 < b.NUM_ANALOG_INPUTS then
        let s := { s with oldADCSRA := s.ADCSRA }
        let s := { s with ADCSRA := clearMask s.ADCSRA (1 <<< b.ADEN) }
        let s := { s with ADMUX := clearMask s.ADMUX 31 }
        let s := { s with ADMUX := setMask s.ADMUX tempAIN1 }
        { s with AC_REGISTER := setMask s.AC_REGISTER (1 <<< b.ACME) }
      else { s with AC_REGISTER := clearMask s.AC_REGISTER (1 <<< b.ACME) }
    let s :=
      match b.family with
      | Family.ATTINYx5 => { s with DIDR0 := clearMask s.DIDR0 ((1 <<< b.AIN1D) ||| (1 <<< b.AIN0D)) }
      | Family.ATTINYx4 => { s with DIDR0 := clearMask s.DIDR0 ((1 <<< b.ADC2D) ||| (1 <<< b.ADC1D)) }
      | Family.ATMEGAx4 => { s with DIDR1 := clearMask s.DIDR1 (1 <<< b.AIN0D) }
      | Family.ATTINYx313 => { s with DIDR := clearMask s.DIDR ((1 <<< b.AIN1D) ||| (1 <<< b.AIN0D)) }
      | Family.ATMEGAx8 => { s with DIDR1 := clearMask s.DIDR1 ((1 <<< b.AIN1D) ||| (1 <<< b.AIN0D)) }
      | Family.ATMEGAx0 => { s with DIDR1 := clearMask s.DIDR1 ((1 <<< b.AIN1D) ||| (1 <<< b.AIN0D)) }
      | Family.ATMEGAxU => s
    let s :=
      if enableTC1 then { s with ACSR := clearMask s.ACSR (1 <<< b.ACIC), redirectTC1 := true }
      else { s with redirectTC1 := false }
    (0, { s with _initialized := 1 })

/-- `analogComp::enableInterrupt`. The call `setOn(AIN0, AIN1)` leaves the third
argument at its default, `false`. -/
def enableInterrupt (b : Build) (tempUserFunction : userFunc) (tempMode : Nat) (s : State) : State :=
  let s :=
    if s._interruptEnabled ≠ 0 then
      let s := { s with SREG := clearMask s.SREG (1 <<< b.SREG_I) }
      { s with ACSR := clearMask s.ACSR (1 <<< b.ACIE) }
    else s
  let s := if s._initialized = 0 then (setOn b b.AIN0 b.AIN1 false s).2 else s
  let s := { s with userFunction := tempUserFunction }
  let s :=
    if tempMode = b.CHANGE then
      { s with ACSR := clearMask s.ACSR ((1 <<< b.ACIS1) ||| (1 <<< b.ACIS0)) }
    else if tempMode = b.FALLING then
      let s := { s with ACSR := clearMask s.ACSR (1 <<< b.ACIS0) }
      { s with ACSR := setMask s.ACSR (1 <<< b.ACIS1) }
    else { s with ACSR := setMask s.ACSR ((1 <<< b.ACIS1) ||| (1 <<< b.ACIS0)) }
  let s := { s with ACSR := setMask s.ACSR (1 <<< b.ACIE) }
  let s := { s with SREG := setMask s.SREG (1 <<< b.SREG_I) }
  { s with _interruptEnabled := 1 }

/-- `analogComp::disableInterrupt`. -/
def disableInterrupt (b : Build) (s : State) : State :=
  if s._initialized = 0 ∨ s._interruptEnabled = 0 then s
  else
    let s := { s with ACSR := clearMask s.ACSR (1 <<< b.ACIE) }
    { s with _interruptEnabled := 0 }

/-- `analogComp::setOff`. -/
def setOff (b : Build) (s : State) : State :=
  if s._initialized ≠ 0 then
    let s :=
      if s._interruptEnabled ≠ 0 then
        let s := { s with ACSR := clearMask s.ACSR (1 <<< b.ACIE) }
        { s with _interruptEnabled := 0 }
      else s
    let s := { s with ACSR := setMask s.ACSR (1 <<< b.ACD) }
    let s := if s.redirectTC1 then { s with ACSR := clearMask s.ACSR (1 <<< b.ACIC) } else s
    let s :=
      match b.family with
      | Family.ATTINYx5 => { s with DIDR0 := setMask s.DIDR0 ((1 <<< b.AIN1D) ||| (1 <<< b.AIN0D)) }
      | Family.ATTINYx4 => { s with DIDR0 := setMask s.DIDR0 ((1 <<< b.ADC2D) ||| (1 <<< b.ADC1D)) }
      | Family.ATMEGAx4 => { s with DIDR1 := setMask s.DIDR1 (1 <<< b.AIN0D) }
      | Family.ATTINYx313 => { s with DIDR := setMask s.DIDR ((1 <<< b.AIN1D) ||| (1 <<< b.AIN0D)) }
      | Family.ATMEGAx8 => { s with DIDR1 := setMask s.DIDR1 ((1 <<< b.AIN1D) ||| (1 <<< b.AIN0D)) }
      | Family.ATMEGAx0 => { s with DIDR1 := setMask s.DIDR1 ((1 <<< b.AIN1D) ||| (1 <<< b.AIN0D)) }
      | Family.ATMEGAxU => s
    let s :=
      if b.family = Family.ATTINYx313 then s
      else if s.AC_REGISTER &&& (1 <<< b.ACME) = 1 then { s with ADCSRA := s.oldADCSRA }
      else s
    { s with _initialized := 0 }
  else s

/-- What the environment gives to one call of `waitComp`: `ticks` are the values
returned by the successive calls of `millis()`, `samples` the values of `ACSR`
read by the successive passes of the polling loop. -/
structure Env where
  ticks : List Nat
  samples : List Nat
deriving DecidableEq

/-- The `do ... while` loop of `waitComp`. Each pass reads `ACSR` (the next
sample) and, when no event is seen, `millis()` (the next tick). The result is
`true` for `return 1` inside the loop and `false` when the loop condition
fails, with what is left of the environment; `none` when the environment is
used up before the loop ends. -/
def pollLoop (b : Build) (_tempMillis : Nat) : List Nat → List Nat → Option (Bool × Env)
  | [], _ => none
  | acsr :: samples, ticks =>
    if logicalAnd acsr (1 <<< b.ACO) = 1 then some (true, { ticks := ticks, samples := samples })
    else
      match ticks with
      | [] => none
      | now :: ticks =>
        if toLong (sub32 now _tempMillis) < 0 then pollLoop b _tempMillis samples ticks
        else some (false, { ticks := ticks, samples := samples })

/-- `analogComp::waitComp`: the result code, the new state and what is left of
the environment; `none` when the environment is used up before the call
returns. The argument is an `unsigned long` (32 bits). -/
def waitComp (b : Build) (_timeOut : Nat) (s : State) (env : Env) : Option (Nat × State × Env) :=
  if s._interruptEnabled ≠ 0 then some (0, s, env)
  else
    let _timeOut := if _timeOut % 2 ^ 32 = 0 then 5000 else _timeOut % 2 ^ 32
    let s :=
      if s._initialized = 0 then { (setOn b b.AIN0 b.AIN1 false s).2 with _initialized := 0 }
      else s
    match env.ticks with
    | [] => none
    | start :: ticks =>
      let _tempMillis := (start % 2 ^ 32 + _timeOut) % 2 ^ 32
      match pollLoop b _tempMillis env.samples ticks with
      | none => none
      | some (true, env) => some (1, s, env)
      | some (false, env) => some (0, if s._initialized = 0 then setOff b s else s, env)

/-- The interrupt service routine `ISR(ANALOG_COMP_vect)`: it calls the stored
handler. The result lists the handlers called and gives the state of the driver
after the dispatch. -/
def ISR (s : State) : List userFunc × State := ([s.userFunction], s)

/-! ## Sequences of driver operations -/

/-- One operation on the driver: a call of one of its functions with its
arguments, or one dispatch of the interrupt. -/
inductive Op
  | configure (tempAIN0 tempAIN1 : Nat) (enableTC1 : Bool)
  | enableInterrupt (tempUserFunction : userFunc) (tempMode : Nat)
  | disableInterrupt
  | waitForEvent (_timeOut : Nat) (env : Env)
  | shutdown
  | dispatch
deriving DecidableEq

/-- The state after one operation; `none` when `waitComp` does not return. -/
def step (b : Build) (s : State) : Op → Option State
  | Op.configure tempAIN0 tempAIN1 enableTC1 => some (setOn b tempAIN0 tempAIN1 enableTC1 s).2
  | Op.enableInterrupt tempUserFunction tempMode => some (enableInterrupt b tempUserFunction tempMode s)
  | Op.disableInterrupt => some (disableInterrupt b s)
  | Op.waitForEvent _timeOut env => (waitComp b _timeOut s env).map fun r => r.2.1
  | Op.shutdown => some (setOff b s)
  | Op.dispatch => some (ISR s).2

/-- The state after a sequence of operations. -/
def run (b : Build) (s : State) : List Op → Option State
  | [] => some s
  | op :: ops => (step b s op).bind fun s => run b s ops

/-! ## The blocks of the driver functions

Each function is the composition of the blocks below (`setOn_eq`, `setOff_eq`,
`enableInterrupt_eq`); the proofs follow the blocks. -/

/-- The block of `setOn` that chooses the non-inverting input. -/
def setOn.positive (b : Build) (tempAIN0 : Nat) (s : State) : State :=
  if tempAIN0 = b.INTERNAL_REFERENCE then { s with ACSR := setMask s.ACSR (1 <<< b.ACBG) }
  else { s with ACSR := clearMask s.ACSR (1 <<< b.ACBG) }

/-- The block of `setOn` that chooses the inverting input. -/
def setOn.negative (b : Build) (tempAIN1 : Nat) (s : State) : State :=
  if b.family = Family.ATTINYx313 then s
  else if tempAIN1 < b.NUM_ANALOG_INPUTS then
    let s := { s with oldADCSRA := s.ADCSRA }
    let s := { s with ADCSRA := clearMask s.ADCSRA (1 <<< b.ADEN) }
    let s := { s with ADMUX := clearMask s.ADMUX 31 }
    let s := { s with ADMUX := setMask s.ADMUX tempAIN1 }
    { s with AC_REGISTER := setMask s.AC_REGISTER (1 <<< b.ACME) }
  else { s with AC_REGISTER := clearMask s.AC_REGISTER (1 <<< b.ACME) }

/-- The block of `setOn` that writes the digital input buffer register. -/
def setOn.buffers (b : Build) (s : State) : State :=
  match b.family with
  | Family.ATTINYx5 => { s with DIDR0 := clearMask s.DIDR0 ((1 <<< b.AIN1D) ||| (1 <<< b.AIN0D)) }
  | Family.ATTINYx4 => { s with DIDR0 := clearMask s.DIDR0 ((1 <<< b.ADC2D) ||| (1 <<< b.ADC1D)) }
  | Family.ATMEGAx4 => { s with DIDR1 := clearMask s.DIDR1 (1 <<< b.AIN0D) }
  | Family.ATTINYx313 => { s with DIDR := clearMask s.DIDR ((1 <<< b.AIN1D) ||| (1 <<< b.AIN0D)) }
  | Family.ATMEGAx8 => { s with DIDR1 := clearMask s.DIDR1 ((1 <<< b.AIN1D) ||| (1 <<< b.AIN0D)) }
  | Family.ATMEGAx0 => { s with DIDR1 := clearMask s.DIDR1 ((1 <<< b.AIN1D) ||| (1 <<< b.AIN0D)) }
  | Family.ATMEGAxU => s

/-- The block of `setOn` that handles the redirection to Timer/Counter1. -/
def setOn.redirect (b : Build) (enableTC1 : Bool) (s : State) : State :=
  if enableTC1 then { s with ACSR := clearMask s.ACSR (1 <<< b.ACIC), redirectTC1 := true }
  else { s with redirectTC1 := false }

/-- The block of `setOff` that disables the interrupt of the comparator. -/
def setOff.interrupt (b : Build) (s : State) : State :=
  if s._interruptEnabled ≠ 0 then
    let s := { s with ACSR := clearMask s.ACSR (1 <<< b.ACIE) }
    { s with _interruptEnabled := 0 }
  else s

/-- The statement of `setOff` that switches the comparator off. -/
def setOff.power (b : Build) (s : State) : State :=
  { s with ACSR := setMask s.ACSR (1 <<< b.ACD) }

/-- The block of `setOff` that handles the redirection to Timer/Counter1. -/
def setOff.redirect (b : Build) (s : State) : State :=
  if s.redirectTC1 then { s with ACSR := clearMask s.ACSR (1 <<< b.ACIC) } else s

/-- The block of `setOff` that writes the digital input buffer register. -/
def setOff.buffers (b : Build) (s : State) : State :=
  match b.family with
  | Family.ATTINYx5 => { s with DIDR0 := setMask s.DIDR0 ((1 <<< b.AIN1D) ||| (1 <<< b.AIN0D)) }
  | Family.ATTINYx4 => { s with DIDR0 := setMask s.DIDR0 ((1 <<< b.ADC2D) ||| (1 <<< b.ADC1D)) }
  | Family.ATMEGAx4 => { s with DIDR1 := setMask s.DIDR1 (1 <<< b.AIN0D) }
  | Family.ATTINYx313 => { s with DIDR := setMask s.DIDR ((1 <<< b.AIN1D) ||| (1 <<< b.AIN0D)) }
  | Family.ATMEGAx8 => { s with DIDR1 := setMask s.DIDR1 ((1 <<< b.AIN1D) ||| (1 <<< b.AIN0D)) }
  | Family.ATMEGAx0 => { s with DIDR1 := setMask s.DIDR1 ((1 <<< b.AIN1D) ||| (1 <<< b.AIN0D)) }
  | Family.ATMEGAxU => s

/-- The block of `setOff` that resets the converter. -/
def setOff.converter (b : Build) (s : State) : State :=
  if b.family = Family.ATTINYx313 then s
  else if s.AC_REGISTER &&& (1 <<< b.ACME) = 1 then { s with ADCSRA := s.oldADCSRA }
  else s

/-- The block of `enableInterrupt` that runs when an interrupt is enabled. -/
def enableInterrupt.mask (b : Build) (s : State) : State :=
  if s._interruptEnabled ≠ 0 then
    let s := { s with SREG := clearMask s.SREG (1 <<< b.SREG_I) }
    { s with ACSR := clearMask s.ACSR (1 <<< b.ACIE) }
  else s

/-- The block of `enableInterrupt` that configures an idle comparator. -/
def enableInterrupt.auto (b : Build) (s : State) : State :=
  if s._initialized = 0 then (setOn b b.AIN0 b.AIN1 false s).2 else s

/-- The block of `enableInterrupt` that sets the interrupt mode. -/
def enableInterrupt.mode (b : Build) (tempMode : Nat) (s : State) : State :=
  if tempMode = b.CHANGE then
    { s with ACSR := clearMask s.ACSR ((1 <<< b.ACIS1) ||| (1 <<< b.ACIS0)) }
  else if tempMode = b.FALLING then
    let s := { s with ACSR := clearMask s.ACSR (1 <<< b.ACIS0) }
    { s with ACSR := setMask s.ACSR (1 <<< b.ACIS1) }
  else { s with ACSR := setMask s.ACSR ((1 <<< b.ACIS1) ||| (1 <<< b.ACIS0)) }

/-- The statements that end `enableInterrupt`. -/
def enableInterrupt.enable (b : Build) (s : State) : State :=
  let s := { s with ACSR := setMask s.ACSR (1 <<< b.ACIE) }
  let s := { s with SREG := setMask s.SREG (1 <<< b.SREG_I) }
  { s with _interruptEnabled := 1 }

/-- The state in which `waitComp` polls: an idle comparator is configured with
`setOn(AIN0, AIN1)` and `_initialized` is set back to `0`. -/
def waitComp.prepare (b : Build) (s : State) : State :=
  if s._initialized = 0 then { (setOn b b.AIN0 b.AIN1 false s).2 with _initialized := 0 }
  else s

/-! ## Concrete inputs -/

/-- The state after `setOn(AIN0, AIN1)` on the ATmega328P after reset. -/
def configured : State := (setOn atmega328p atmega328p.AIN0 atmega328p.AIN1 false reset).2

/-- The state after `setOn(INTERNAL_REFERENCE, AIN1)` on the ATmega328P after
reset: `ACBG` is the only bit set in `ACSR`. -/
def configuredReference : State :=
  (setOn atmega328p atmega328p.INTERNAL_REFERENCE atmega328p.AIN1 false reset).2

/-- The ATmega328P as the Arduino core leaves it: the converter is enabled with
prescaler 128 (`ADCSRA = 0x87`), the comparator has not been configured. -/
def arduinoStart : State := { reset with ADCSRA := 0x87 }

/-- An idle driver whose comparator is switched off: `ACD` is set in `ACSR` and
the bits `AIN1D`, `AIN0D` are set in `DIDR1`, as `setOff` leaves them. -/
def switchedOff : State := { reset with ACSR := 0x80, DIDR1 := 0x03 }

/-- An environment in which no event is seen and the tick reaches 1000 at the
third call of `millis()`. -/
def quietEnv : Env := { ticks := [0, 400, 1000], samples := [0, 0] }

/-- A sequence of operations that ends in interrupt mode. -/
def sampleOps : List Op :=
  [Op.configure 0 2 false, Op.enableInterrupt 7 1, Op.dispatch, Op.disableInterrupt,
    Op.waitForEvent 1000 quietEnv, Op.shutdown, Op.enableInterrupt 9 2]

/-- The state that `sampleOps` reaches from `reset` on the ATmega328P. -/
def sampleFinal : State :=
  { reset with
    ACSR := 0x0A, ADMUX := 2, SREG := 0x80, userFunction := 9, _initialized := 1,
    _interruptEnabled := 1 }

/-- A build for the ATmega32U4: family `ATMEGAxU`, twelve analog inputs, the bit
numbers of its data sheet (the same as on the ATmega328P for the registers the
driver writes on this family). The family writes no digital input buffer
register; the fields `AIN0D`, `AIN1D`, `ADC1D`, `ADC2D` are unused there. -/
def atmega32u4 : Build :=
  { atmega328p with family := Family.ATMEGAxU, NUM_ANALOG_INPUTS := 12 }

/-! ## The functions as compositions of their blocks -/

theorem setOn_eq (b : Build) (a0 a1 : Nat) (tc : Bool) (s : State) :
    setOn b a0 a1 tc s =
      if s._initialized ≠ 0 then (1, s)
      else (0, { setOn.redirect b tc (setOn.buffers b (setOn.negative b
          (if b.family = Family.ATMEGAxU ∧ a1 = b.AIN1 then 0 else a1)
          (setOn.positive b a0
            { s with ACSR := clearMask (clearMask s.ACSR (1 <<< b.ACIE)) (1 <<< b.ACD) })))
        with _initialized := 1 }) := rfl

theorem setOff_eq (b : Build) (s : State) :
    setOff b s =
      if s._initialized ≠ 0 then
        { setOff.converter b (setOff.buffers b (setOff.redirect b (setOff.power b
            (setOff.interrupt b s)))) with _initialized := 0 }
      else s := rfl

theorem enableInterrupt_eq (b : Build) (cb : userFunc) (mode : Nat) (s : State) :
    enableInterrupt b cb mode s =
      enableInterrupt.enable b (enableInterrupt.mode b mode
        { enableInterrupt.auto b (enableInterrupt.mask b s) with userFunction := cb }) := rfl

theorem waitComp_eq (b : Build) (t : Nat) (s : State) (env : Env) :
    waitComp b t s env =
      if s._interruptEnabled ≠ 0 then some (0, s, env)
      else
        match env.ticks with
        | [] => none
        | start :: ticks =>
          match pollLoop b ((start % 2 ^ 32 + (if t % 2 ^ 32 = 0 then 5000 else t % 2 ^ 32)) % 2 ^ 32)
              env.samples ticks with
          | none => none
          | some (true, env) => some (1, waitComp.prepare b s, env)
          | some (false, env) =>
            some (0, if (waitComp.prepare b s)._initialized = 0 then setOff b (waitComp.prepare b s)
              else waitComp.prepare b s, env) := rfl

/-! ## Bits of a register after a write -/

theorem testBit_setMask (r m i : Nat) :
    (setMask r m).testBit i = (decide (i < 8) && (r.testBit i || m.testBit i)) := by
  have h : (256 : Nat) = 2 ^ 8 := by norm_num
  rw [setMask, h, Nat.testBit_mod_two_pow, Nat.testBit_or]

theorem testBit_clearMask (r m i : Nat) :
    (clearMask r m).testBit i = (decide (i < 8) && (r.testBit i && !m.testBit i)) := by
  have h : (256 : Nat) = 2 ^ 8 := by norm_num
  have h16 : (0xFFFF : Nat) = 2 ^ 16 - 1 := by norm_num
  rw [clearMask, h, h16, Nat.testBit_mod_two_pow, Nat.testBit_and, Nat.testBit_xor,
    Nat.testBit_two_pow_sub_one]
  by_cases h8 : i < 8
  · have h' : i < 16 := by omega
    simp [h8, h']
  · simp [h8]

theorem testBit_bit (k i : Nat) : (1 <<< k).testBit i = decide (k = i) := by
  rw [Nat.one_shiftLeft, Nat.testBit_two_pow]

theorem testBit_setMask_bit (r k i : Nat) :
    (setMask r (1 <<< k)).testBit i = (decide (i < 8) && (r.testBit i || decide (k = i))) := by
  rw [testBit_setMask, testBit_bit]

theorem testBit_clearMask_bit (r k i : Nat) :
    (clearMask r (1 <<< k)).testBit i = (decide (i < 8) && (r.testBit i && !decide (k = i))) := by
  rw [testBit_clearMask, testBit_bit]

/-! ## What the blocks leave unchanged -/

section frame
variable (b : Build) (s : State)

@[simp]
theorem setOn_positive_initialized (a : Nat) :
    (setOn.positive b a s)._initialized = s._initialized := by
  unfold setOn.positive; split_ifs <;> rfl

@[simp]
theorem setOn_positive_interruptEnabled (a : Nat) :
    (setOn.positive b a s)._interruptEnabled = s._interruptEnabled := by
  unfold setOn.positive; split_ifs <;> rfl

@[simp]
theorem setOn_negative_initialized (a : Nat) :
    (setOn.negative b a s)._initialized = s._initialized := by
  unfold setOn.negative; split_ifs <;> rfl

@[simp]
theorem setOn_negative_interruptEnabled (a : Nat) :
    (setOn.negative b a s)._interruptEnabled = s._interruptEnabled := by
  unfold setOn.negative; split_ifs <;> rfl

@[simp]
theorem setOn_negative_ACSR (a : Nat) : (setOn.negative b a s).ACSR = s.ACSR := by
  unfold setOn.negative; split_ifs <;> rfl

@[simp]
theorem setOn_buffers_initialized : (setOn.buffers b s)._initialized = s._initialized := by
  unfold setOn.buffers; split <;> rfl

@[simp]
theorem setOn_buffers_interruptEnabled :
    (setOn.buffers b s)._interruptEnabled = s._interruptEnabled := by
  unfold setOn.buffers; split <;> rfl

@[simp]
theorem setOn_buffers_ACSR : (setOn.buffers b s).ACSR = s.ACSR := by
  unfold setOn.buffers; split <;> rfl

@[simp]
theorem setOn_redirect_initialized (tc : Bool) :
    (setOn.redirect b tc s)._initialized = s._initialized := by
  unfold setOn.redirect; split_ifs <;> rfl

@[simp]
theorem setOn_redirect_interruptEnabled (tc : Bool) :
    (setOn.redirect b tc s)._interruptEnabled = s._interruptEnabled := by
  unfold setOn.redirect; split_ifs <;> rfl

@[simp]
theorem setOff_interrupt_interruptEnabled : (setOff.interrupt b s)._interruptEnabled = 0 := by
  unfold setOff.interrupt; split_ifs with h
  · rfl
  · exact not_not.mp h

@[simp]
theorem setOff_interrupt_redirectTC1 :
    (setOff.interrupt b s).redirectTC1 = s.redirectTC1 := by
  unfold setOff.interrupt; split_ifs <;> rfl

@[simp]
theorem setOff_redirect_interruptEnabled :
    (setOff.redirect b s)._interruptEnabled = s._interruptEnabled := by
  unfold setOff.redirect; split_ifs <;> rfl

@[simp]
theorem setOff_buffers_interruptEnabled :
    (setOff.buffers b s)._interruptEnabled = s._interruptEnabled := by
  unfold setOff.buffers; split <;> rfl

@[simp]
theorem setOff_buffers_ACSR : (setOff.buffers b s).ACSR = s.ACSR := by
  unfold setOff.buffers; split <;> rfl

@[simp]
theorem setOff_converter_interruptEnabled :
    (setOff.converter b s)._interruptEnabled = s._interruptEnabled := by
  unfold setOff.converter; split_ifs <;> rfl

@[simp]
theorem setOff_converter_ACSR : (setOff.converter b s).ACSR = s.ACSR := by
  unfold setOff.converter; split_ifs <;> rfl

@[simp]
theorem enableInterrupt_mode_initialized (m : Nat) :
    (enableInterrupt.mode b m s)._initialized = s._initialized := by
  unfold enableInterrupt.mode; split_ifs <;> rfl

@[simp]
theorem enableInterrupt_mode_userFunction (m : Nat) :
    (enableInterrupt.mode b m s).userFunction = s.userFunction := by
  unfold enableInterrupt.mode; split_ifs <;> rfl

end frame

/-! ## The flags after each function -/

theorem setOn_initialized_ne (b : Build) (a0 a1 : Nat) (tc : Bool) (s : State) :
    (setOn b a0 a1 tc s).2._initialized ≠ 0 := by
  rw [setOn_eq]
  by_cases h : s._initialized ≠ 0
  · rw [if_pos h]; exact h
  · rw [if_neg h]; exact Nat.one_ne_zero

theorem setOn_interruptEnabled (b : Build) (a0 a1 : Nat) (tc : Bool) (s : State) :
    (setOn b a0 a1 tc s).2._interruptEnabled = s._interruptEnabled := by
  rw [setOn_eq]
  by_cases h : s._initialized ≠ 0
  · rw [if_pos h]
  · rw [if_neg h]; simp

theorem setOff_interruptEnabled (b : Build) (s : State) (h : s._interruptEnabled = 0) :
    (setOff b s)._interruptEnabled = 0 := by
  rw [setOff_eq]
  by_cases hi : s._initialized ≠ 0
  · rw [if_pos hi]; simp [setOff.power]
  · rw [if_neg hi]; exact h

theorem setOff_interruptEnabled_of_initialized (b : Build) (s : State) (h : s._initialized ≠ 0) :
    (setOff b s)._interruptEnabled = 0 := by
  rw [setOff_eq, if_pos h]
  simp [setOff.power]

theorem enableInterrupt_initialized_ne (b : Build) (cb : userFunc) (m : Nat) (s : State) :
    (enableInterrupt b cb m s)._initialized ≠ 0 := by
  rw [enableInterrupt_eq]
  simp only [enableInterrupt.enable, enableInterrupt_mode_initialized, enableInterrupt.auto]
  split_ifs with h
  · exact setOn_initialized_ne b _ _ _ _
  · exact h

theorem waitComp_prepare_interruptEnabled (b : Build) (s : State) :
    (waitComp.prepare b s)._interruptEnabled = s._interruptEnabled := by
  unfold waitComp.prepare
  split_ifs
  · exact setOn_interruptEnabled b _ _ _ _
  · rfl

theorem setOff_of_not_initialized (b : Build) (s : State) (h : s._initialized = 0) :
    setOff b s = s := by
  rw [setOff, if_neg (not_not.mpr h)]

theorem setOff_initialized (b : Build) (s : State) : (setOff b s)._initialized = 0 := by
  by_cases h : s._initialized ≠ 0
  · rw [setOff, if_pos h]
  · rw [setOff, if_neg h]; exact not_not.mp h

theorem waitComp_prepare_of_initialized (b : Build) (s : State) (h : s._initialized ≠ 0) :
    waitComp.prepare b s = s := by
  rw [waitComp.prepare, if_neg h]

theorem waitComp_prepare_initialized_of_idle (b : Build) (s : State) (h : s._initialized = 0) :
    (waitComp.prepare b s)._initialized = 0 := by
  rw [waitComp.prepare, if_pos h]

/-- Whatever `waitComp` returns, its state is the state in which it polled or,
after a timeout with `_initialized == 0`, that state after `setOff`. -/
theorem waitComp_state (b : Build) (t : Nat) (s : State) (env : Env) (r : Nat) (s' : State)
    (env' : Env) (he : s._interruptEnabled = 0) (h : waitComp b t s env = some (r, s', env')) :
    (r = 1 ∧ s' = waitComp.prepare b s) ∨
      (r = 0 ∧ s' = if (waitComp.prepare b s)._initialized = 0 then setOff b (waitComp.prepare b s)
        else waitComp.prepare b s) := by
  rw [waitComp_eq, if_neg (not_not.mpr he)] at h
  split at h
  · exact absurd h (by simp)
  · split at h
    · exact absurd h (by simp)
    · simp only [Option.some.injEq, Prod.mk.injEq] at h
      exact Or.inl ⟨h.1.symm, h.2.1.symm⟩
    · simp only [Option.some.injEq, Prod.mk.injEq] at h
      exact Or.inr ⟨h.1.symm, h.2.1.symm⟩

theorem waitComp_interruptEnabled (b : Build) (t : Nat) (s : State) (env : Env) (r : Nat)
    (s' : State) (env' : Env) (he : s._interruptEnabled = 0)
    (h : waitComp b t s env = some (r, s', env')) : s'._interruptEnabled = 0 := by
  have hp : (waitComp.prepare b s)._interruptEnabled = 0 := by
    rw [waitComp_prepare_interruptEnabled]; exact he
  rcases waitComp_state b t s env r s' env' he h with ⟨-, hs⟩ | ⟨-, hs⟩
  · rw [hs]; exact hp
  · rw [hs]
    split_ifs
    · exact setOff_interruptEnabled b _ hp
    · exact hp

theorem waitComp_of_interruptEnabled (b : Build) (t : Nat) (s : State) (env : Env)
    (h : s._interruptEnabled ≠ 0) : waitComp b t s env = some (0, s, env) := by
  rw [waitComp, if_pos h]

/-- One operation keeps "interrupt mode implies configured". -/
theorem step_invariant (b : Build) (s s' : State) (op : Op)
    (hinv : s._interruptEnabled ≠ 0 → s._initialized ≠ 0) (h : step b s op = some s') :
    s'._interruptEnabled ≠ 0 → s'._initialized ≠ 0 := by
  cases op with
  | configure a0 a1 tc =>
    simp only [step, Option.some.injEq] at h
    subst h
    exact fun _ => setOn_initialized_ne b a0 a1 tc s
  | enableInterrupt cb m =>
    simp only [step, Option.some.injEq] at h
    subst h
    exact fun _ => enableInterrupt_initialized_ne b cb m s
  | disableInterrupt =>
    simp only [step, Option.some.injEq] at h
    subst h
    unfold disableInterrupt
    split_ifs
    · exact hinv
    · exact fun hne => absurd rfl hne
  | waitForEvent t env =>
    by_cases he : s._interruptEnabled = 0
    · simp only [step, Option.map_eq_some'] at h
      obtain ⟨⟨r, s'', env'⟩, hw, hs⟩ := h
      simp only at hs
      subst hs
      exact fun hne => absurd (waitComp_interruptEnabled b t s env r s'' env' he hw) hne
    · rw [step, waitComp_of_interruptEnabled b t s env he] at h
      simp only [Option.map_some', Option.some.injEq] at h
      subst h
      exact hinv
  | shutdown =>
    simp only [step, Option.some.injEq] at h
    subst h
    intro hne
    by_cases hi : s._initialized ≠ 0
    · exact absurd (setOff_interruptEnabled_of_initialized b s hi) hne
    · rw [setOff_of_not_initialized b s (not_not.mp hi)] at hne ⊢
      exact hinv hne
  | dispatch =>
    simp only [step, ISR, Option.some.injEq] at h
    subst h
    exact hinv

/-! ## The polling condition and the reset of the converter -/

theorem logicalAnd_bit (x k : Nat) : logicalAnd x (1 <<< k) = if x ≠ 0 then 1 else 0 := by
  have hk : (1 : Nat) <<< k ≠ 0 := by
    rw [Nat.one_shiftLeft]
    exact Nat.pos_iff_ne_zero.mp (Nat.two_pow_pos k)
  unfold logicalAnd
  by_cases hx : x ≠ 0
  · rw [if_pos ⟨hx, hk⟩, if_pos hx]
  · rw [if_neg (fun h => hx h.1), if_neg hx]

/-- The polling loop ends with `return 1` at its first pass whenever the value
read from `ACSR` is not zero, whatever its bit `ACO` is. -/
theorem pollLoop_of_ne_zero (b : Build) (d acsr : Nat) (samples ticks : List Nat)
    (h : acsr ≠ 0) :
    pollLoop b d (acsr :: samples) ticks = some (true, { ticks := ticks, samples := samples }) := by
  simp only [pollLoop, logicalAnd_bit, if_pos h, if_true]

theorem and_bit_ne_one (x k : Nat) (hk : k ≠ 0) : x &&& (1 <<< k) ≠ 1 := by
  intro h
  have h0 : (x &&& (1 <<< k)).testBit 0 = Nat.testBit 1 0 := by rw [h]
  rw [Nat.testBit_and, testBit_bit] at h0
  simp [hk] at h0

/-- The block of `setOff` that resets the converter changes nothing when `ACME`
is not bit 0 of its register. -/
theorem setOff_converter_of_ACME (b : Build) (s : State) (hk : b.ACME ≠ 0) :
    setOff.converter b s = s := by
  unfold setOff.converter
  rw [if_neg (and_bit_ne_one s.AC_REGISTER b.ACME hk)]
  split_ifs <;> rfl

/-- After `waitComp` on an idle driver the state is the one in which it polled:
the call of `setOff` after the timeout finds `_initialized == 0`. -/
theorem waitComp_idle_state (b : Build) (t : Nat) (s : State) (env : Env) (r : Nat) (s' : State)
    (env' : Env) (hi : s._initialized = 0) (he : s._interruptEnabled = 0)
    (h : waitComp b t s env = some (r, s', env')) : s' = waitComp.prepare b s := by
  rcases waitComp_state b t s env r s' env' he h with ⟨-, hs⟩ | ⟨-, hs⟩
  · exact hs
  · rw [hs, if_pos (waitComp_prepare_initialized_of_idle b s hi),
      setOff_of_not_initialized b _ (waitComp_prepare_initialized_of_idle b s hi)]

theorem run_invariant (b : Build) (ops : List Op) :
    ∀ s s' : State, (s._interruptEnabled ≠ 0 → s._initialized ≠ 0) → run b s ops = some s' →
      s'._interruptEnabled ≠ 0 → s'._initialized ≠ 0 := by
  induction ops with
  | nil =>
    intro s s' hinv h
    simp only [run, Option.some.injEq] at h
    subst h
    exact hinv
  | cons op ops ih =>
    intro s s' hinv h
    simp only [run, Option.bind_eq_some] at h
    obtain ⟨s1, h1, h2⟩ := h
    exact ih s1 s' (step_invariant b s s1 op hinv h1) h2

theorem run_dispatch (b : Build) (s : State) (n : Nat) :
    run b s (List.replicate n Op.dispatch) = some s := by
  induction n with
  | zero => rfl
  | succ n ih => simpa [List.replicate_succ, run, step, ISR] using ih

theorem enableInterrupt_userFunction (b : Build) (cb : userFunc) (m : Nat) (s : State) :
    (enableInterrupt b cb m s).userFunction = cb := by
  rw [enableInterrupt_eq]
  simp [enableInterrupt.enable]

theorem setOff_interrupt_ACSR (b : Build) (s : State) :
    (setOff.interrupt b s).ACSR =
      if s._interruptEnabled ≠ 0 then clearMask s.ACSR (1 <<< b.ACIE) else s.ACSR := by
  unfold setOff.interrupt; split_ifs <;> rfl

theorem setOff_redirect_ACSR (b : Build) (s : State) :
    (setOff.redirect b s).ACSR =
      if s.redirectTC1 then clearMask s.ACSR (1 <<< b.ACIC) else s.ACSR := by
  unfold setOff.redirect; split_ifs <;> rfl

/-- The register `ACSR` after `setOff` in a Configured state. -/
theorem setOff_ACSR (b : Build) (s : State) (h : s._initialized ≠ 0) :
    (setOff b s).ACSR =
      if s.redirectTC1 then
        clearMask (setMask (if s._interruptEnabled ≠ 0 then clearMask s.ACSR (1 <<< b.ACIE)
          else s.ACSR) (1 <<< b.ACD)) (1 <<< b.ACIC)
      else
        setMask (if s._interruptEnabled ≠ 0 then clearMask s.ACSR (1 <<< b.ACIE) else s.ACSR)
          (1 <<< b.ACD) := by
  rw [setOff_eq, if_pos h]
  simp [setOff_redirect_ACSR, setOff.power, setOff_interrupt_ACSR]

/-! ## Properties of the specification -/

/-- C1: in a state that is not Uninitialized, `setOn` returns 1 and leaves the
whole state unchanged, whatever its arguments; in an Uninitialized state it
returns 0 and the state afterwards is Configured (`_initialized` is 1). -/
theorem setOn_guard (b : Build) (a0 a1 : Nat) (tc : Bool) (s : State) :
    (s._initialized ≠ 0 → setOn b a0 a1 tc s = (1, s)) ∧
      (s._initialized = 0 →
        (setOn b a0 a1 tc s).1 = 0 ∧ (setOn b a0 a1 tc s).2._initialized = 1) := by
  constructor
  · intro h
    rw [setOn, if_pos h]
  · intro h
    rw [setOn, if_neg (not_not.mpr h)]
    exact ⟨rfl, rfl⟩

theorem setOn_guard_witness :
    setOn atmega328p 1 2 true configured = (1, configured) ∧
      (setOn atmega328p 0 255 false reset).1 = 0 ∧
      (setOn atmega328p 0 255 false reset).2._initialized = 1 :=
  ⟨(setOn_guard atmega328p 1 2 true configured).1 (by decide),
    (setOn_guard atmega328p 0 255 false reset).2 rfl⟩

/-- C2: on the ATmega328P with the converter enabled (`ADCSRA = 0x87`),
`setOn(AIN0, 2)` succeeds and saves `ADCSRA`, clears `ADEN` and sets `ACME`, and
the following `setOff` leaves `ADCSRA` at `0x07`: the value before `setOn` is
not written back, because `AC_REGISTER & (1<<ACME)` is `0x40` and never `1`. -/
theorem setOff_leaves_ADCSRA :
    arduinoStart._initialized = 0 ∧ 2 < atmega328p.NUM_ANALOG_INPUTS ∧
      (setOn atmega328p atmega328p.AIN0 2 false arduinoStart).1 = 0 ∧
      (setOn atmega328p atmega328p.AIN0 2 false arduinoStart).2.oldADCSRA = 0x87 ∧
      (setOn atmega328p atmega328p.AIN0 2 false arduinoStart).2.AC_REGISTER &&&
        (1 <<< atmega328p.ACME) = 0x40 ∧
      (setOff atmega328p (setOn atmega328p atmega328p.AIN0 2 false arduinoStart).2).ADCSRA = 0x07 ∧
      arduinoStart.ADCSRA = 0x87 := by
  decide

/-- C3: on the ATmega328P, `waitComp(1000)` on an idle driver whose comparator
is switched off returns 0 after the timeout with the comparator switched on
(`ACSR = 0`, `DIDR1 = 0`) and `_initialized == 0`: its call of `setOff` changes
nothing. `setOn(AIN0, AIN1)` followed by `setOff` gives another state, with
`ACD` set. -/
theorem waitComp_leaves_comparator_on :
    switchedOff._initialized = 0 ∧ switchedOff._interruptEnabled = 0 ∧
      waitComp atmega328p 1000 switchedOff quietEnv =
        some (0, { switchedOff with ACSR := 0, DIDR1 := 0 }, { ticks := [], samples := [] }) ∧
      setOff atmega328p (setOn atmega328p atmega328p.AIN0 atmega328p.AIN1 false switchedOff).2 =
        switchedOff ∧
      Nat.testBit 0 atmega328p.ACD = false ∧
      switchedOff.ACSR.testBit atmega328p.ACD = true := by
  decide

/-- C4 as stated fails: on the ATmega328P, after `setOn(AIN0, AIN1)` a call
`waitComp(1000)` without event returns 0 after the timeout and `_initialized`
is still 1. -/
theorem waitComp_timeout_stays_configured :
    (setOn atmega328p atmega328p.AIN0 atmega328p.AIN1 false reset).1 = 0 ∧
      waitComp atmega328p 1000 configured quietEnv =
        some (0, configured, { ticks := [], samples := [] }) ∧
      configured._initialized = 1 := by
  decide

/-- C4, amended: when the driver is Configured with no interrupt enabled and
`waitComp` returns 0 after the timeout, the whole state is as before the call;
the driver is still Configured (`_initialized != 0`). -/
theorem waitComp_configured_unchanged (b : Build) (t : Nat) (s s' : State) (env env' : Env)
    (hi : s._initialized ≠ 0) (he : s._interruptEnabled = 0)
    (h : waitComp b t s env = some (0, s', env')) : s' = s ∧ s'._initialized ≠ 0 := by
  have hs : s' = s := by
    rcases waitComp_state b t s env 0 s' env' he h with ⟨h0, -⟩ | ⟨-, hs⟩
    · exact absurd h0 (by decide)
    · rw [hs, waitComp_prepare_of_initialized b s hi, if_neg hi]
  exact ⟨hs, hs ▸ hi⟩

theorem waitComp_configured_unchanged_witness :
    configured._initialized ≠ 0 ∧ configured._interruptEnabled = 0 ∧
      waitComp atmega328p 1000 configured quietEnv =
        some (0, configured, { ticks := [], samples := [] }) ∧
      (configured = configured ∧ configured._initialized ≠ 0) :=
  ⟨by decide, by decide, by decide,
    waitComp_configured_unchanged atmega328p 1000 configured configured quietEnv
      { ticks := [], samples := [] } (by decide) (by decide) (by decide)⟩

/-- C5: on the ATmega328P, after `setOn(INTERNAL_REFERENCE, AIN1)` the register
`ACSR` reads `0x40` (`ACBG` set, `ACO` clear); `waitComp(1000)` returns 1 at the
first sample although `ACO` is clear in it, because `ACSR && (1<<ACO)` is 1 for
every non-zero `ACSR`. -/
theorem waitComp_event_without_ACO :
    configuredReference.ACSR = 0x40 ∧ configuredReference._interruptEnabled = 0 ∧
      Nat.testBit 0x40 atmega328p.ACO = false ∧
      waitComp atmega328p 1000 configuredReference { ticks := [0, 1], samples := [0x40, 0x40] } =
        some (1, configuredReference, { ticks := [1], samples := [0x40] }) := by
  decide

/-- C6: when an interrupt is enabled, `waitComp` returns 0 with the state
unchanged and the environment untouched: no tick and no sample is read. -/
theorem waitComp_interrupt_mode (b : Build) (t : Nat) (s : State) (env : Env)
    (h : s._interruptEnabled ≠ 0) : waitComp b t s env = some (0, s, env) :=
  waitComp_of_interruptEnabled b t s env h

theorem waitComp_interrupt_mode_witness :
    (enableInterrupt atmega328p 7 1 reset)._interruptEnabled ≠ 0 ∧
      waitComp atmega328p 1000 (enableInterrupt atmega328p 7 1 reset) quietEnv =
        some (0, enableInterrupt atmega328p 7 1 reset, quietEnv) :=
  ⟨by decide, waitComp_interrupt_mode atmega328p 1000 _ quietEnv (by decide)⟩

/-- C7: after `enableInterrupt(cb, mode)` the interrupt service routine calls
`cb` and nothing else, whatever handler was stored before; after
`enableInterrupt(cb1, CHANGE)` and `enableInterrupt(cb2, FALLING)` it calls
`cb2` only; a dispatch leaves the state unchanged, so this holds for every
later dispatch as well. -/
theorem enableInterrupt_replaces_callback (b : Build) (s : State) (cb cb1 cb2 : userFunc)
    (mode n : Nat) :
    (ISR (enableInterrupt b cb mode s)).1 = [cb] ∧
      (ISR (enableInterrupt b cb2 b.FALLING (enableInterrupt b cb1 b.CHANGE s))).1 = [cb2] ∧
      (ISR s).2 = s ∧
      run b s (List.replicate n Op.dispatch) = some s := by
  refine ⟨?_, ?_, rfl, run_dispatch b s n⟩
  · simp only [ISR, enableInterrupt_userFunction]
  · simp only [ISR, enableInterrupt_userFunction]

/-- C8: from a state with both flags 0, every sequence of `setOn`,
`enableInterrupt`, `disableInterrupt`, `waitComp`, `setOff` and interrupt
dispatch leads to a state where `_interruptEnabled != 0` implies
`_initialized != 0`. -/
theorem interrupt_implies_initialized (b : Build) (s0 s : State) (ops : List Op)
    (_hi : s0._initialized = 0) (he : s0._interruptEnabled = 0) (h : run b s0 ops = some s) :
    s._interruptEnabled ≠ 0 → s._initialized ≠ 0 :=
  run_invariant b ops s0 s (fun hne => absurd he hne) h

theorem interrupt_implies_initialized_witness :
    reset._initialized = 0 ∧ reset._interruptEnabled = 0 ∧
      run atmega328p reset sampleOps = some sampleFinal ∧
      (sampleFinal._interruptEnabled ≠ 0 → sampleFinal._initialized ≠ 0) :=
  ⟨rfl, rfl, by decide,
    interrupt_implies_initialized atmega328p reset sampleFinal sampleOps rfl rfl (by decide)⟩

/-- C9: `setOff` twice is `setOff` once, on the whole state, and `setOff` leaves
an Uninitialized state unchanged. -/
theorem setOff_idempotent (b : Build) (s : State) :
    setOff b (setOff b s) = setOff b s ∧ (s._initialized = 0 → setOff b s = s) :=
  ⟨setOff_of_not_initialized b _ (setOff_initialized b s), setOff_of_not_initialized b s⟩

theorem setOff_idempotent_witness :
    setOff atmega328p (setOff atmega328p configured) = setOff atmega328p configured ∧
      setOff atmega328p reset = reset :=
  ⟨(setOff_idempotent atmega328p configured).1, (setOff_idempotent atmega328p reset).2 rfl⟩

/-! ## The registers after `enableInterrupt` and `disableInterrupt` -/

theorem enableInterrupt_interruptEnabled (b : Build) (cb : userFunc) (m : Nat) (s : State) :
    (enableInterrupt b cb m s)._interruptEnabled = 1 := rfl

theorem enableInterrupt_mode_ACSR (b : Build) (m : Nat) (s : State) :
    (enableInterrupt.mode b m s).ACSR =
      if m = b.CHANGE then clearMask s.ACSR ((1 <<< b.ACIS1) ||| (1 <<< b.ACIS0))
      else if m = b.FALLING then setMask (clearMask s.ACSR (1 <<< b.ACIS0)) (1 <<< b.ACIS1)
      else setMask s.ACSR ((1 <<< b.ACIS1) ||| (1 <<< b.ACIS0)) := by
  unfold enableInterrupt.mode; split_ifs <;> rfl

theorem enableInterrupt_mode_SREG (b : Build) (m : Nat) (s : State) :
    (enableInterrupt.mode b m s).SREG = s.SREG := by
  unfold enableInterrupt.mode; split_ifs <;> rfl

/-- The register `ACSR` after `enableInterrupt`, from its value when the handler
is stored. -/
theorem enableInterrupt_ACSR (b : Build) (cb : userFunc) (m : Nat) (s : State) :
    (enableInterrupt b cb m s).ACSR =
      setMask
        (if m = b.CHANGE then
          clearMask (enableInterrupt.auto b (enableInterrupt.mask b s)).ACSR
            ((1 <<< b.ACIS1) ||| (1 <<< b.ACIS0))
        else if m = b.FALLING then
          setMask (clearMask (enableInterrupt.auto b (enableInterrupt.mask b s)).ACSR
            (1 <<< b.ACIS0)) (1 <<< b.ACIS1)
        else
          setMask (enableInterrupt.auto b (enableInterrupt.mask b s)).ACSR
            ((1 <<< b.ACIS1) ||| (1 <<< b.ACIS0)))
        (1 <<< b.ACIE) := by
  rw [enableInterrupt_eq]
  simp only [enableInterrupt.enable, enableInterrupt_mode_ACSR]

theorem enableInterrupt_SREG (b : Build) (cb : userFunc) (m : Nat) (s : State) :
    (enableInterrupt b cb m s).SREG =
      setMask (enableInterrupt.auto b (enableInterrupt.mask b s)).SREG (1 <<< b.SREG_I) := by
  rw [enableInterrupt_eq]
  simp only [enableInterrupt.enable, enableInterrupt_mode_SREG]

theorem disableInterrupt_of_active (b : Build) (s : State) (hi : s._initialized ≠ 0)
    (he : s._interruptEnabled ≠ 0) :
    disableInterrupt b s =
      { s with ACSR := clearMask s.ACSR (1 <<< b.ACIE), _interruptEnabled := 0 } := by
  rw [disableInterrupt, if_neg (by simp [hi, he])]

theorem disableInterrupt_of_idle (b : Build) (s : State)
    (h : s._initialized = 0 ∨ s._interruptEnabled = 0) : disableInterrupt b s = s := by
  rw [disableInterrupt, if_pos h]

/-- The result of `waitComp` when it reaches the polling loop in a Configured
state: that of the loop, with the state unchanged. -/
theorem waitComp_of_configured (b : Build) (t : Nat) (s : State) (start : Nat)
    (ticks samples : List Nat) (hi : s._initialized ≠ 0) (he : s._interruptEnabled = 0) :
    waitComp b t s { ticks := start :: ticks, samples := samples } =
      (pollLoop b ((start % 2 ^ 32 + (if t % 2 ^ 32 = 0 then 5000 else t % 2 ^ 32)) % 2 ^ 32)
        samples ticks).map fun r => (if r.1 then 1 else 0, s, r.2) := by
  rw [waitComp_eq, if_neg (not_not.mpr he), waitComp_prepare_of_initialized b s hi]
  simp only [if_neg hi]
  cases pollLoop b ((start % 2 ^ 32 + (if t % 2 ^ 32 = 0 then 5000 else t % 2 ^ 32)) % 2 ^ 32)
      samples ticks with
  | none => rfl
  | some r =>
    obtain ⟨hit, env'⟩ := r
    cases hit <;> rfl

/-! ## The converter registers after `setOn` -/

theorem setOn_negative_ADCSRA (b : Build) (a : Nat) (s : State) :
    (setOn.negative b a s).ADCSRA =
      if b.family = Family.ATTINYx313 then s.ADCSRA
      else if a < b.NUM_ANALOG_INPUTS then clearMask s.ADCSRA (1 <<< b.ADEN) else s.ADCSRA := by
  unfold setOn.negative; split_ifs <;> rfl

theorem setOn_negative_oldADCSRA (b : Build) (a : Nat) (s : State) :
    (setOn.negative b a s).oldADCSRA =
      if b.family = Family.ATTINYx313 then s.oldADCSRA
      else if a < b.NUM_ANALOG_INPUTS then s.ADCSRA else s.oldADCSRA := by
  unfold setOn.negative; split_ifs <;> rfl

theorem setOn_negative_ADMUX (b : Build) (a : Nat) (s : State) :
    (setOn.negative b a s).ADMUX =
      if b.family = Family.ATTINYx313 then s.ADMUX
      else if a < b.NUM_ANALOG_INPUTS then setMask (clearMask s.ADMUX 31) a else s.ADMUX := by
  unfold setOn.negative; split_ifs <;> rfl

theorem setOn_negative_AC_REGISTER (b : Build) (a : Nat) (s : State) :
    (setOn.negative b a s).AC_REGISTER =
      if b.family = Family.ATTINYx313 then s.AC_REGISTER
      else if a < b.NUM_ANALOG_INPUTS then setMask s.AC_REGISTER (1 <<< b.ACME)
      else clearMask s.AC_REGISTER (1 <<< b.ACME) := by
  unfold setOn.negative; split_ifs <;> rfl

section converter
variable (b : Build) (s : State)

@[simp]
theorem setOn_positive_ADCSRA (a : Nat) : (setOn.positive b a s).ADCSRA = s.ADCSRA := by
  unfold setOn.positive; split_ifs <;> rfl

@[simp]
theorem setOn_positive_oldADCSRA (a : Nat) :
    (setOn.positive b a s).oldADCSRA = s.oldADCSRA := by
  unfold setOn.positive; split_ifs <;> rfl

@[simp]
theorem setOn_positive_ADMUX (a : Nat) : (setOn.positive b a s).ADMUX = s.ADMUX := by
  unfold setOn.positive; split_ifs <;> rfl

@[simp]
theorem setOn_positive_AC_REGISTER (a : Nat) :
    (setOn.positive b a s).AC_REGISTER = s.AC_REGISTER := by
  unfold setOn.positive; split_ifs <;> rfl

@[simp]
theorem setOn_buffers_ADCSRA : (setOn.buffers b s).ADCSRA = s.ADCSRA := by
  unfold setOn.buffers; split <;> rfl

@[simp]
theorem setOn_buffers_oldADCSRA : (setOn.buffers b s).oldADCSRA = s.oldADCSRA := by
  unfold setOn.buffers; split <;> rfl

@[simp]
theorem setOn_buffers_ADMUX : (setOn.buffers b s).ADMUX = s.ADMUX := by
  unfold setOn.buffers; split <;> rfl

@[simp]
theorem setOn_buffers_AC_REGISTER : (setOn.buffers b s).AC_REGISTER = s.AC_REGISTER := by
  unfold setOn.buffers; split <;> rfl

@[simp]
theorem setOn_redirect_ADCSRA (tc : Bool) : (setOn.redirect b tc s).ADCSRA = s.ADCSRA := by
  unfold setOn.redirect; split_ifs <;> rfl

@[simp]
theorem setOn_redirect_oldADCSRA (tc : Bool) :
    (setOn.redirect b tc s).oldADCSRA = s.oldADCSRA := by
  unfold setOn.redirect; split_ifs <;> rfl

@[simp]
theorem setOn_redirect_ADMUX (tc : Bool) : (setOn.redirect b tc s).ADMUX = s.ADMUX := by
  unfold setOn.redirect; split_ifs <;> rfl

@[simp]
theorem setOn_redirect_AC_REGISTER (tc : Bool) :
    (setOn.redirect b tc s).AC_REGISTER = s.AC_REGISTER := by
  unfold setOn.redirect; split_ifs <;> rfl

end converter

/-- The converter registers after a successful `setOn` whose inverting input `ch`
is not replaced (the replacement is that of `AIN1` by 0 on the family
`ATMEGAxU`), on a family with a converter. -/
theorem setOn_converter (b : Build) (a0 ch : Nat) (tc : Bool) (s : State)
    (hs : s._initialized = 0) (hf : b.family ≠ Family.ATTINYx313)
    (hU : ¬(b.family = Family.ATMEGAxU ∧ ch = b.AIN1)) :
    (setOn b a0 ch tc s).2.ADCSRA =
        (if ch < b.NUM_ANALOG_INPUTS then clearMask s.ADCSRA (1 <<< b.ADEN) else s.ADCSRA) ∧
      (setOn b a0 ch tc s).2.oldADCSRA =
        (if ch < b.NUM_ANALOG_INPUTS then s.ADCSRA else s.oldADCSRA) ∧
      (setOn b a0 ch tc s).2.ADMUX =
        (if ch < b.NUM_ANALOG_INPUTS then setMask (clearMask s.ADMUX 31) ch else s.ADMUX) ∧
      (setOn b a0 ch tc s).2.AC_REGISTER =
        (if ch < b.NUM_ANALOG_INPUTS then setMask s.AC_REGISTER (1 <<< b.ACME)
          else clearMask s.AC_REGISTER (1 <<< b.ACME)) := by
  rw [setOn_eq, if_neg (not_not.mpr hs), if_neg hU]
  simp [setOn_negative_ADCSRA, setOn_negative_oldADCSRA, setOn_negative_ADMUX,
    setOn_negative_AC_REGISTER, hf]

theorem testBit_31 (i : Nat) : Nat.testBit 31 i = decide (i < 5) := by
  have h : (31 : Nat) = 2 ^ 5 - 1 := by norm_num
  rw [h, Nat.testBit_two_pow_sub_one]

theorem testBit_of_lt_32 (ch i : Nat) (h : ch < 32) (hi : 5 ≤ i) : ch.testBit i = false := by
  apply Nat.testBit_lt_two_pow
  calc ch < 2 ^ 5 := h
    _ ≤ 2 ^ i := Nat.pow_le_pow_right (by decide) hi

/-! ## The bit `ACIE` along the operations -/

theorem setOn_positive_ACSR (b : Build) (a : Nat) (s : State) :
    (setOn.positive b a s).ACSR =
      if a = b.INTERNAL_REFERENCE then setMask s.ACSR (1 <<< b.ACBG)
      else clearMask s.ACSR (1 <<< b.ACBG) := by
  unfold setOn.positive; split_ifs <;> rfl

theorem setOn_redirect_ACSR (b : Build) (tc : Bool) (s : State) :
    (setOn.redirect b tc s).ACSR =
      if tc = true then clearMask s.ACSR (1 <<< b.ACIC) else s.ACSR := by
  unfold setOn.redirect; split_ifs <;> rfl

/-- The register `ACSR` after a successful `setOn`. -/
theorem setOn_ACSR (b : Build) (a0 a1 : Nat) (tc : Bool) (s : State) (hs : s._initialized = 0) :
    (setOn b a0 a1 tc s).2.ACSR =
      if tc = true then
        clearMask (if a0 = b.INTERNAL_REFERENCE then
            setMask (clearMask (clearMask s.ACSR (1 <<< b.ACIE)) (1 <<< b.ACD)) (1 <<< b.ACBG)
          else clearMask (clearMask (clearMask s.ACSR (1 <<< b.ACIE)) (1 <<< b.ACD))
            (1 <<< b.ACBG)) (1 <<< b.ACIC)
      else if a0 = b.INTERNAL_REFERENCE then
        setMask (clearMask (clearMask s.ACSR (1 <<< b.ACIE)) (1 <<< b.ACD)) (1 <<< b.ACBG)
      else clearMask (clearMask (clearMask s.ACSR (1 <<< b.ACIE)) (1 <<< b.ACD))
        (1 <<< b.ACBG) := by
  rw [setOn_eq, if_neg (not_not.mpr hs)]
  simp [setOn_redirect_ACSR, setOn_positive_ACSR]

/-- A successful `setOn` leaves `ACIE` clear. -/
theorem setOn_ACIE (b : Build) (a0 a1 : Nat) (tc : Bool) (s : State) (hs : s._initialized = 0)
    (hBG : b.ACIE ≠ b.ACBG) : (setOn b a0 a1 tc s).2.ACSR.testBit b.ACIE = false := by
  rw [setOn_ACSR b a0 a1 tc s hs]
  split_ifs <;>
    simp only [testBit_setMask_bit, testBit_clearMask_bit] <;>
    simp [Ne.symm hBG]

/-- The bit `ACIE` after `setOff` in a Configured state. -/
theorem setOff_ACIE (b : Build) (s : State) (hi : s._initialized ≠ 0) (hD : b.ACIE ≠ b.ACD)
    (hc : s._interruptEnabled = 0 → s.ACSR.testBit b.ACIE = false) :
    (setOff b s).ACSR.testBit b.ACIE = false := by
  rw [setOff_ACSR b s hi]
  split_ifs with h1 h2 h2 <;>
    simp only [testBit_setMask_bit, testBit_clearMask_bit] <;>
    simp [Ne.symm hD] <;>
    simp_all

theorem waitComp_configured_state (b : Build) (t : Nat) (s : State) (env : Env) (r : Nat)
    (s' : State) (env' : Env) (hi : s._initialized ≠ 0) (he : s._interruptEnabled = 0)
    (h : waitComp b t s env = some (r, s', env')) : s' = s := by
  rcases waitComp_state b t s env r s' env' he h with ⟨-, hs⟩ | ⟨-, hs⟩
  · rw [hs, waitComp_prepare_of_initialized b s hi]
  · rw [hs, waitComp_prepare_of_initialized b s hi, if_neg hi]

theorem waitComp_prepare_ACSR_of_idle (b : Build) (s : State) (h : s._initialized = 0) :
    (waitComp.prepare b s).ACSR = (setOn b b.AIN0 b.AIN1 false s).2.ACSR := by
  rw [waitComp.prepare, if_pos h]

/-- One operation keeps "`_interruptEnabled != 0` exactly when `ACIE` is set",
in a state where interrupt mode implies configured. -/
theorem step_flag_ACIE (b : Build) (s s' : State) (op : Op) (hE : b.ACIE < 8)
    (hD : b.ACIE ≠ b.ACD) (hBG : b.ACIE ≠ b.ACBG)
    (hinv : s._interruptEnabled ≠ 0 → s._initialized ≠ 0)
    (hflag : s._interruptEnabled ≠ 0 ↔ s.ACSR.testBit b.ACIE = true)
    (h : step b s op = some s') :
    s'._interruptEnabled ≠ 0 ↔ s'.ACSR.testBit b.ACIE = true := by
  have hclear : s._interruptEnabled = 0 → s.ACSR.testBit b.ACIE = false := by
    intro h0
    cases hb : s.ACSR.testBit b.ACIE with
    | false => rfl
    | true => exact absurd h0 (hflag.mpr hb)
  cases op with
  | configure a0 a1 tc =>
    simp only [step, Option.some.injEq] at h
    subst h
    by_cases hi : s._initialized = 0
    · have he : s._interruptEnabled = 0 := by
        by_contra hne
        exact hinv hne hi
      rw [setOn_interruptEnabled, setOn_ACIE b a0 a1 tc s hi hBG]
      simp [he]
    · rw [setOn, if_pos hi]
      exact hflag
  | enableInterrupt cb m =>
    simp only [step, Option.some.injEq] at h
    subst h
    rw [enableInterrupt_interruptEnabled, enableInterrupt_ACSR]
    simp only [testBit_setMask_bit]
    simp [hE]
  | disableInterrupt =>
    simp only [step, Option.some.injEq] at h
    subst h
    by_cases hidle : s._initialized = 0 ∨ s._interruptEnabled = 0
    · rw [disableInterrupt_of_idle b s hidle]
      exact hflag
    · rw [not_or] at hidle
      rw [disableInterrupt_of_active b s hidle.1 hidle.2]
      simp only [testBit_clearMask_bit]
      simp
  | waitForEvent t env =>
    by_cases he : s._interruptEnabled = 0
    · simp only [step, Option.map_eq_some'] at h
      obtain ⟨⟨r, s'', env'⟩, hw, hs⟩ := h
      simp only at hs
      subst hs
      by_cases hi : s._initialized = 0
      · have hs' := waitComp_idle_state b t s env r s'' env' hi he hw
        rw [hs', waitComp_prepare_interruptEnabled, waitComp_prepare_ACSR_of_idle b s hi,
          setOn_ACIE b _ _ _ s hi hBG]
        simp [he]
      · rw [waitComp_configured_state b t s env r s'' env' hi he hw]
        exact hflag
    · rw [step, waitComp_of_interruptEnabled b t s env he] at h
      simp only [Option.map_some', Option.some.injEq] at h
      subst h
      exact hflag
  | shutdown =>
    simp only [step, Option.some.injEq] at h
    subst h
    by_cases hi : s._initialized ≠ 0
    · rw [setOff_interruptEnabled_of_initialized b s hi, setOff_ACIE b s hi hD hclear]
      simp
    · rw [setOff_of_not_initialized b s (not_not.mp hi)]
      exact hflag
  | dispatch =>
    simp only [step, ISR, Option.some.injEq] at h
    subst h
    exact hflag

theorem run_flag_ACIE (b : Build) (ops : List Op) (hE : b.ACIE < 8) (hD : b.ACIE ≠ b.ACD)
    (hBG : b.ACIE ≠ b.ACBG) :
    ∀ s s' : State, (s._interruptEnabled ≠ 0 → s._initialized ≠ 0) →
      (s._interruptEnabled ≠ 0 ↔ s.ACSR.testBit b.ACIE = true) → run b s ops = some s' →
      (s'._interruptEnabled ≠ 0 → s'._initialized ≠ 0) ∧
        (s'._interruptEnabled ≠ 0 ↔ s'.ACSR.testBit b.ACIE = true) := by
  induction ops with
  | nil =>
    intro s s' hinv hflag h
    simp only [run, Option.some.injEq] at h
    subst h
    exact ⟨hinv, hflag⟩
  | cons op ops ih =>
    intro s s' hinv hflag h
    simp only [run, Option.bind_eq_some] at h
    obtain ⟨s1, h1, h2⟩ := h
    exact ih s1 s' (step_invariant b s s1 op hinv h1)
      (step_flag_ACIE b s s1 op hE hD hBG hinv hflag h1) h2

/-- The bit `ACIE` is clear in the state in which `enableInterrupt` stores the
handler, when the flags of the state before the call are in step with it. -/
theorem enableInterrupt_store_ACIE (b : Build) (s : State) (hBG : b.ACIE ≠ b.ACBG)
    (hinv : s._interruptEnabled ≠ 0 → s._initialized ≠ 0)
    (hflag : s._interruptEnabled ≠ 0 ↔ s.ACSR.testBit b.ACIE = true) :
    (enableInterrupt.auto b (enableInterrupt.mask b s)).ACSR.testBit b.ACIE = false := by
  by_cases he : s._interruptEnabled ≠ 0
  · have hm : enableInterrupt.mask b s =
        { s with SREG := clearMask s.SREG (1 <<< b.SREG_I),
                 ACSR := clearMask s.ACSR (1 <<< b.ACIE) } := by
      rw [enableInterrupt.mask, if_pos he]
    rw [hm, enableInterrupt.auto, if_neg (hinv he)]
    simp only [testBit_clearMask_bit]
    simp
  · have hm : enableInterrupt.mask b s = s := by
      rw [enableInterrupt.mask, if_neg he]
    rw [hm, enableInterrupt.auto]
    split_ifs with hi
    · exact setOn_ACIE b _ _ _ s hi hBG
    · cases hb : s.ACSR.testBit b.ACIE with
      | false => rfl
      | true => exact absurd (hflag.mpr hb) he

/-- The bit `ACD` after `setOff` in a Configured state. -/
theorem setOff_ACD (b : Build) (s : State) (hi : s._initialized ≠ 0) (hACD : b.ACD < 8)
    (hACIC : b.ACD ≠ b.ACIC) : (setOff b s).ACSR.testBit b.ACD = true := by
  rw [setOff_ACSR b s hi]
  split_ifs <;>
    simp only [testBit_setMask_bit, testBit_clearMask_bit] <;>
    simp [hACD, hACIC.symm]

/-- One operation keeps "Configured without interrupt implies `ACIE` clear". -/
theorem step_idle_ACIE (b : Build) (s s' : State) (op : Op) (hBG : b.ACIE ≠ b.ACBG)
    (hI : s._initialized ≠ 0 → s._interruptEnabled = 0 → s.ACSR.testBit b.ACIE = false)
    (h : step b s op = some s') :
    s'._initialized ≠ 0 → s'._interruptEnabled = 0 → s'.ACSR.testBit b.ACIE = false := by
  cases op with
  | configure a0 a1 tc =>
    simp only [step, Option.some.injEq] at h
    subst h
    by_cases hi : s._initialized = 0
    · exact fun _ _ => setOn_ACIE b a0 a1 tc s hi hBG
    · rw [setOn, if_pos hi]
      exact hI
  | enableInterrupt cb m =>
    simp only [step, Option.some.injEq] at h
    subst h
    intro _ he
    rw [enableInterrupt_interruptEnabled] at he
    exact absurd he Nat.one_ne_zero
  | disableInterrupt =>
    simp only [step, Option.some.injEq] at h
    subst h
    by_cases hidle : s._initialized = 0 ∨ s._interruptEnabled = 0
    · rw [disableInterrupt_of_idle b s hidle]
      exact hI
    · rw [not_or] at hidle
      rw [disableInterrupt_of_active b s hidle.1 hidle.2]
      intro _ _
      simp only [testBit_clearMask_bit]
      simp
  | waitForEvent t env =>
    by_cases he : s._interruptEnabled = 0
    · simp only [step, Option.map_eq_some'] at h
      obtain ⟨⟨r, s'', env'⟩, hw, hs⟩ := h
      simp only at hs
      subst hs
      by_cases hi : s._initialized = 0
      · intro hne
        rw [waitComp_idle_state b t s env r s'' env' hi he hw] at hne
        exact absurd (waitComp_prepare_initialized_of_idle b s hi) hne
      · rw [waitComp_configured_state b t s env r s'' env' hi he hw]
        exact hI
    · rw [step, waitComp_of_interruptEnabled b t s env he] at h
      simp only [Option.map_some', Option.some.injEq] at h
      subst h
      exact hI
  | shutdown =>
    simp only [step, Option.some.injEq] at h
    subst h
    exact fun hne => absurd (setOff_initialized b s) hne
  | dispatch =>
    simp only [step, ISR, Option.some.injEq] at h
    subst h
    exact hI

theorem run_idle_ACIE (b : Build) (ops : List Op) (hBG : b.ACIE ≠ b.ACBG) :
    ∀ s s' : State,
      (s._initialized ≠ 0 → s._interruptEnabled = 0 → s.ACSR.testBit b.ACIE = false) →
      run b s ops = some s' →
      s'._initialized ≠ 0 → s'._interruptEnabled = 0 → s'.ACSR.testBit b.ACIE = false := by
  induction ops with
  | nil =>
    intro s s' hI h
    simp only [run, Option.some.injEq] at h
    subst h
    exact hI
  | cons op ops ih =>
    intro s s' hI h
    simp only [run, Option.bind_eq_some] at h
    obtain ⟨s1, h1, h2⟩ := h
    exact ih s1 s' (step_idle_ACIE b s s1 op hBG hI h1) h2

/-! ## The timeout arithmetic -/

/-- The loop condition `(long)(millis() - _tempMillis) < 0` for a deadline
`start + t`, in terms of the elapsed time. -/
theorem toLong_sub32_deadline (start t n : Nat) (ht0 : 0 < t) (ht : t < 2 ^ 31)
    (he : sub32 n start < 2 ^ 31) :
    toLong (sub32 n ((start % 2 ^ 32 + t) % 2 ^ 32)) < 0 ↔ sub32 n start < t := by
  unfold toLong sub32 at *
  norm_num at *
  split_ifs <;> omega

/-- One pass of the polling loop without event: it goes on exactly when the
elapsed time is below the timeout. -/
theorem pollLoop_quiet_step (b : Build) (start t n : Nat) (samples ticks : List Nat)
    (ht0 : 0 < t) (ht : t < 2 ^ 31) (he : sub32 n start < 2 ^ 31) :
    pollLoop b ((start % 2 ^ 32 + t) % 2 ^ 32) (0 :: samples) (n :: ticks) =
      if sub32 n start < t then pollLoop b ((start % 2 ^ 32 + t) % 2 ^ 32) samples ticks
      else some (false, { ticks := ticks, samples := samples }) := by
  have h := toLong_sub32_deadline start t n ht0 ht he
  rw [pollLoop, logicalAnd_bit]
  simp only [ne_eq, not_true_eq_false, if_false, Nat.zero_ne_one]
  by_cases hlt : sub32 n start < t
  · rw [if_pos (h.mpr hlt), if_pos hlt]
  · rw [if_neg (fun hc => hlt (h.mp hc)), if_neg hlt]

/-- Without event the polling loop ends at the first tick whose elapsed time
reaches the timeout. -/
theorem pollLoop_quiet (b : Build) (start t n : Nat) (early rest more : List Nat)
    (ht0 : 0 < t) (ht : t < 2 ^ 31) (hearly : ∀ m ∈ early, sub32 m start < t)
    (hn : t ≤ sub32 n start) (he : sub32 n start < 2 ^ 31) :
    pollLoop b ((start % 2 ^ 32 + t) % 2 ^ 32) (List.replicate (early.length + 1) 0 ++ more)
        (early ++ n :: rest) = some (false, { ticks := rest, samples := more }) := by
  induction early with
  | nil =>
    have hq := pollLoop_quiet_step b start t n more rest ht0 ht he
    rw [if_neg (Nat.not_lt.mpr hn)] at hq
    simpa using hq
  | cons m early ih =>
    have hm : sub32 m start < t := hearly m (List.mem_cons_self m early)
    have hq := pollLoop_quiet_step b start t m
      (List.replicate (early.length + 1) 0 ++ more) (early ++ n :: rest) ht0 ht
      (Nat.lt_trans hm ht)
    rw [if_pos hm] at hq
    have ih' := ih (fun x hx => hearly x (List.mem_cons_of_mem m hx))
    rw [ih'] at hq
    simpa [List.replicate_succ] using hq

/-! ## Properties of shutdown, interrupt control, timing and input selection -/

/-- C10: in every Configured state, with or without an interrupt enabled, that
the driver reaches from an Uninitialized state by a sequence of its operations,
after `setOff` the bit `ACD` of `ACSR` is set, the bit `ACIE` is clear and both
flags are 0. The bit numbers are those of an 8-bit register in which `ACD`
differs from `ACIE` and `ACIC`, and `ACIE` from `ACBG`. -/
theorem setOff_postcondition (b : Build) (s0 s : State) (ops : List Op) (hACD : b.ACD < 8)
    (hACIE : b.ACD ≠ b.ACIE) (hACIC : b.ACD ≠ b.ACIC) (hBG : b.ACIE ≠ b.ACBG)
    (h0 : s0._initialized = 0) (h : run b s0 ops = some s) (hi : s._initialized ≠ 0) :
    (setOff b s).ACSR.testBit b.ACD = true ∧ (setOff b s).ACSR.testBit b.ACIE = false ∧
      (setOff b s)._interruptEnabled = 0 ∧ (setOff b s)._initialized = 0 :=
  ⟨setOff_ACD b s hi hACD hACIC,
    setOff_ACIE b s hi (Ne.symm hACIE)
      (run_idle_ACIE b ops hBG s0 s (fun hne => absurd h0 hne) h hi),
    setOff_interruptEnabled_of_initialized b s hi, setOff_initialized b s⟩

theorem setOff_postcondition_witness :
    atmega328p.ACD < 8 ∧ atmega328p.ACD ≠ atmega328p.ACIE ∧ atmega328p.ACD ≠ atmega328p.ACIC ∧
      atmega328p.ACIE ≠ atmega328p.ACBG ∧ reset._initialized = 0 ∧
      run atmega328p reset sampleOps = some sampleFinal ∧ sampleFinal._initialized ≠ 0 ∧
      sampleFinal._interruptEnabled ≠ 0 ∧
      ((setOff atmega328p sampleFinal).ACSR.testBit atmega328p.ACD = true ∧
        (setOff atmega328p sampleFinal).ACSR.testBit atmega328p.ACIE = false ∧
        (setOff atmega328p sampleFinal)._interruptEnabled = 0 ∧
        (setOff atmega328p sampleFinal)._initialized = 0) ∧
      run atmega328p reset [Op.configure 0 255 false] = some configured ∧
      configured._initialized ≠ 0 ∧ configured._interruptEnabled = 0 ∧
      ((setOff atmega328p configured).ACSR.testBit atmega328p.ACD = true ∧
        (setOff atmega328p configured).ACSR.testBit atmega328p.ACIE = false ∧
        (setOff atmega328p configured)._interruptEnabled = 0 ∧
        (setOff atmega328p configured)._initialized = 0) :=
  ⟨by decide, by decide, by decide, by decide, rfl, by decide, by decide, by decide,
    setOff_postcondition atmega328p reset sampleFinal sampleOps (by decide) (by decide)
      (by decide) (by decide) rfl (by decide) (by decide),
    by decide, by decide, by decide,
    setOff_postcondition atmega328p reset configured [Op.configure 0 255 false] (by decide)
      (by decide) (by decide) (by decide) rfl (by decide) (by decide)⟩

/-- C11: after `enableInterrupt` followed by `disableInterrupt`, from any state,
the driver is Configured and not in interrupt mode (`_initialized != 0`,
`_interruptEnabled == 0`, `ACIE` clear), and a following `waitComp` reaches the
polling loop: it reads the start tick and its result is that of the loop. -/
theorem enable_then_disable (b : Build) (cb : userFunc) (m t start : Nat) (s : State)
    (ticks samples : List Nat) :
    (disableInterrupt b (enableInterrupt b cb m s))._initialized ≠ 0 ∧
      (disableInterrupt b (enableInterrupt b cb m s))._interruptEnabled = 0 ∧
      (disableInterrupt b (enableInterrupt b cb m s)).ACSR.testBit b.ACIE = false ∧
      waitComp b t (disableInterrupt b (enableInterrupt b cb m s))
          { ticks := start :: ticks, samples := samples } =
        (pollLoop b ((start % 2 ^ 32 + (if t % 2 ^ 32 = 0 then 5000 else t % 2 ^ 32)) % 2 ^ 32)
          samples ticks).map fun r =>
            (if r.1 then 1 else 0, disableInterrupt b (enableInterrupt b cb m s), r.2) := by
  have hi : (enableInterrupt b cb m s)._initialized ≠ 0 := enableInterrupt_initialized_ne b cb m s
  have he : (enableInterrupt b cb m s)._interruptEnabled ≠ 0 := by
    rw [enableInterrupt_interruptEnabled]; exact Nat.one_ne_zero
  have hd := disableInterrupt_of_active b (enableInterrupt b cb m s) hi he
  have h1 : (disableInterrupt b (enableInterrupt b cb m s))._initialized ≠ 0 := by
    rw [hd]; exact hi
  have h2 : (disableInterrupt b (enableInterrupt b cb m s))._interruptEnabled = 0 := by
    rw [hd]
  refine ⟨h1, h2, ?_, waitComp_of_configured b t _ start ticks samples h1 h2⟩
  rw [hd]
  simp only [testBit_clearMask_bit]
  simp

/-- C12: after `enableInterrupt`, for every state and every mode value: with
`CHANGE` the bits `ACIS1` and `ACIS0` of `ACSR` are clear; with `FALLING`
`ACIS1` is set and `ACIS0` is clear; with every other value both are set and
the whole state is the one that `RISING` gives. The bit numbers `ACIS1`, `ACIS0`
are below 8, differ from each other and from `ACIE`; `CHANGE`, `FALLING` and
`RISING` are three different values. -/
theorem enableInterrupt_edge_bits (b : Build) (cb : userFunc) (m RISING : Nat) (s : State)
    (h1 : b.ACIS1 < 8) (h0 : b.ACIS0 < 8) (h10 : b.ACIS1 ≠ b.ACIS0) (hE1 : b.ACIE ≠ b.ACIS1)
    (hE0 : b.ACIE ≠ b.ACIS0) (hCF : b.CHANGE ≠ b.FALLING) (hRC : RISING ≠ b.CHANGE)
    (hRF : RISING ≠ b.FALLING) :
    (m = b.CHANGE →
        (enableInterrupt b cb m s).ACSR.testBit b.ACIS1 = false ∧
          (enableInterrupt b cb m s).ACSR.testBit b.ACIS0 = false) ∧
      (m = b.FALLING →
        (enableInterrupt b cb m s).ACSR.testBit b.ACIS1 = true ∧
          (enableInterrupt b cb m s).ACSR.testBit b.ACIS0 = false) ∧
      (m ≠ b.CHANGE → m ≠ b.FALLING →
        (enableInterrupt b cb m s).ACSR.testBit b.ACIS1 = true ∧
          (enableInterrupt b cb m s).ACSR.testBit b.ACIS0 = true ∧
          enableInterrupt b cb m s = enableInterrupt b cb RISING s) := by
  refine ⟨fun hm => ?_, fun hm => ?_, fun hC hF => ⟨?_, ?_, ?_⟩⟩
  · rw [enableInterrupt_ACSR, if_pos hm]
    simp only [testBit_setMask, testBit_clearMask, Nat.testBit_or, testBit_bit]
    simp [hE1, hE0]
  · rw [enableInterrupt_ACSR, if_neg (by rw [hm]; exact Ne.symm hCF), if_pos hm]
    simp only [testBit_setMask, testBit_clearMask, Nat.testBit_or, testBit_bit]
    simp [hE0, h1, h10]
  · rw [enableInterrupt_ACSR, if_neg hC, if_neg hF]
    simp only [testBit_setMask, testBit_clearMask, Nat.testBit_or, testBit_bit]
    simp [h1]
  · rw [enableInterrupt_ACSR, if_neg hC, if_neg hF]
    simp only [testBit_setMask, testBit_clearMask, Nat.testBit_or, testBit_bit]
    simp [h0]
  · rw [enableInterrupt_eq, enableInterrupt_eq]
    have hm : ∀ x, enableInterrupt.mode b m x = enableInterrupt.mode b RISING x := by
      intro x
      rw [enableInterrupt.mode, enableInterrupt.mode, if_neg hC, if_neg hF, if_neg hRC, if_neg hRF]
    rw [hm]

theorem enableInterrupt_edge_bits_witness :
    atmega328p.ACIS1 < 8 ∧ atmega328p.ACIS0 < 8 ∧ atmega328p.ACIS1 ≠ atmega328p.ACIS0 ∧
      atmega328p.ACIE ≠ atmega328p.ACIS1 ∧ atmega328p.ACIE ≠ atmega328p.ACIS0 ∧
      atmega328p.CHANGE ≠ atmega328p.FALLING ∧ 3 ≠ atmega328p.CHANGE ∧ 3 ≠ atmega328p.FALLING ∧
      ((enableInterrupt atmega328p 7 1 reset).ACSR.testBit atmega328p.ACIS1 = false ∧
        (enableInterrupt atmega328p 7 1 reset).ACSR.testBit atmega328p.ACIS0 = false) ∧
      ((enableInterrupt atmega328p 7 2 reset).ACSR.testBit atmega328p.ACIS1 = true ∧
        (enableInterrupt atmega328p 7 2 reset).ACSR.testBit atmega328p.ACIS0 = false) ∧
      ((enableInterrupt atmega328p 7 200 reset).ACSR.testBit atmega328p.ACIS1 = true ∧
        (enableInterrupt atmega328p 7 200 reset).ACSR.testBit atmega328p.ACIS0 = true ∧
        enableInterrupt atmega328p 7 200 reset = enableInterrupt atmega328p 7 3 reset) :=
  ⟨by decide, by decide, by decide, by decide, by decide, by decide, by decide, by decide,
    (enableInterrupt_edge_bits atmega328p 7 1 3 reset (by decide) (by decide) (by decide)
      (by decide) (by decide) (by decide) (by decide) (by decide)).1 rfl,
    (enableInterrupt_edge_bits atmega328p 7 2 3 reset (by decide) (by decide) (by decide)
      (by decide) (by decide) (by decide) (by decide) (by decide)).2.1 rfl,
    (enableInterrupt_edge_bits atmega328p 7 200 3 reset (by decide) (by decide) (by decide)
      (by decide) (by decide) (by decide) (by decide) (by decide)).2.2 (by decide) (by decide)⟩

/-- C13: `waitComp(0)` is `waitComp(5000)`: same result code, same final state,
same reads of the environment. With a timeout of 0 the loop goes on at tick
4999 and ends at tick 5000. -/
theorem waitComp_default_timeout (b : Build) (s : State) (env : Env) :
    waitComp b 0 s env = waitComp b 5000 s env ∧
      waitComp atmega328p 0 configured { ticks := [0, 4999, 5000], samples := [0, 0] } =
        some (0, configured, { ticks := [], samples := [] }) :=
  ⟨rfl, by decide⟩

/-- C14: with 32-bit ticks, for a start tick, a timeout `t` with
`0 < t < 2^31` and a sampled tick `n` whose elapsed time `(n - start) mod 2^32`
is below `2^31`, the loop condition `(long)(n - (start + t)) < 0` holds exactly
when the elapsed time is below `t`; so without event the loop goes on through
the ticks with elapsed time below `t` and ends at the first tick `n` whose
elapsed time reaches `t`, also across an overflow of the tick counter. -/
theorem waitComp_timeout_wraparound (b : Build) (start t n : Nat) (early rest more : List Nat)
    (ht0 : 0 < t) (ht : t < 2 ^ 31) (he : sub32 n start < 2 ^ 31) :
    (toLong (sub32 n ((start % 2 ^ 32 + t) % 2 ^ 32)) < 0 ↔ sub32 n start < t) ∧
      ((∀ m ∈ early, sub32 m start < t) → t ≤ sub32 n start →
        pollLoop b ((start % 2 ^ 32 + t) % 2 ^ 32)
            (List.replicate (early.length + 1) 0 ++ more) (early ++ n :: rest) =
          some (false, { ticks := rest, samples := more })) :=
  ⟨toLong_sub32_deadline start t n ht0 ht he,
    fun hearly hn => pollLoop_quiet b start t n early rest more ht0 ht hearly hn he⟩

theorem waitComp_timeout_wraparound_witness :
    0 < 1000 ∧ 1000 < 2 ^ 31 ∧ sub32 900 (2 ^ 32 - 100) < 2 ^ 31 ∧
      (toLong (sub32 900 (((2 ^ 32 - 100) % 2 ^ 32 + 1000) % 2 ^ 32)) < 0 ↔
        sub32 900 (2 ^ 32 - 100) < 1000) ∧
      pollLoop atmega328p (((2 ^ 32 - 100) % 2 ^ 32 + 1000) % 2 ^ 32)
          (List.replicate ([2 ^ 32 - 50, 400].length + 1) 0 ++ [0])
          ([2 ^ 32 - 50, 400] ++ 900 :: [901]) =
        some (false, { ticks := [901], samples := [0] }) :=
  ⟨by decide, by decide, by decide,
    (waitComp_timeout_wraparound atmega328p (2 ^ 32 - 100) 1000 900 [2 ^ 32 - 50, 400] [901] [0]
      (by decide) (by decide) (by decide)).1,
    (waitComp_timeout_wraparound atmega328p (2 ^ 32 - 100) 1000 900 [2 ^ 32 - 50, 400] [901] [0]
      (by decide) (by decide) (by decide)).2 (by decide) (by decide)⟩

/-- C15: `disableInterrupt` leaves the whole state unchanged when the driver is
Uninitialized or has no interrupt enabled; otherwise it writes `ACSR` with
`ACIE` cleared and sets `_interruptEnabled` to 0, and nothing else: every other
bit of the 8-bit `ACSR`, `_initialized` (non-zero), the stored handler and all
other registers are unchanged. -/
theorem disableInterrupt_frame (b : Build) (s : State) :
    (s._initialized = 0 ∨ s._interruptEnabled = 0 → disableInterrupt b s = s) ∧
      (s._initialized ≠ 0 → s._interruptEnabled ≠ 0 →
        disableInterrupt b s =
            { s with ACSR := (disableInterrupt b s).ACSR, _interruptEnabled := 0 } ∧
          (disableInterrupt b s).ACSR.testBit b.ACIE = false ∧
          (∀ i, i < 8 → i ≠ b.ACIE →
            (disableInterrupt b s).ACSR.testBit i = s.ACSR.testBit i) ∧
          (disableInterrupt b s)._initialized ≠ 0 ∧
          (disableInterrupt b s).userFunction = s.userFunction) := by
  refine ⟨disableInterrupt_of_idle b s, fun hi he => ?_⟩
  rw [disableInterrupt_of_active b s hi he]
  refine ⟨rfl, ?_, ?_, hi, rfl⟩
  · simp only [testBit_clearMask_bit]
    simp
  · intro i h8 hne
    simp only [testBit_clearMask_bit]
    simp [h8, Ne.symm hne]

theorem disableInterrupt_frame_witness :
    disableInterrupt atmega328p configured = configured ∧
      (disableInterrupt atmega328p sampleFinal =
          { sampleFinal with
            ACSR := (disableInterrupt atmega328p sampleFinal).ACSR, _interruptEnabled := 0 } ∧
        (disableInterrupt atmega328p sampleFinal).ACSR.testBit atmega328p.ACIE = false ∧
        (∀ i, i < 8 → i ≠ atmega328p.ACIE →
          (disableInterrupt atmega328p sampleFinal).ACSR.testBit i = sampleFinal.ACSR.testBit i) ∧
        (disableInterrupt atmega328p sampleFinal)._initialized ≠ 0 ∧
        (disableInterrupt atmega328p sampleFinal).userFunction = sampleFinal.userFunction) :=
  ⟨(disableInterrupt_frame atmega328p configured).1 (Or.inr rfl),
    (disableInterrupt_frame atmega328p sampleFinal).2 (by decide) (by decide)⟩

/-- C16 as stated fails: on the ATmega328P after reset the bit `I` of `SREG` is
clear; after `enableInterrupt` it is set. -/
theorem enableInterrupt_sets_I :
    reset.SREG.testBit atmega328p.SREG_I = false ∧
      (enableInterrupt atmega328p 7 3 reset).SREG = 0x80 ∧
      (enableInterrupt atmega328p 7 3 reset).SREG.testBit atmega328p.SREG_I = true := by
  decide

/-- C16, amended: after `enableInterrupt`, for every state, handler and mode, the
bit `ACIE` of `ACSR` is set and the bit `I` of `SREG` is set, whatever its value
before the call. The bit numbers are below 8. -/
theorem enableInterrupt_enables (b : Build) (cb : userFunc) (m : Nat) (s : State)
    (hE : b.ACIE < 8) (hI : b.SREG_I < 8) :
    (enableInterrupt b cb m s).ACSR.testBit b.ACIE = true ∧
      (enableInterrupt b cb m s).SREG.testBit b.SREG_I = true := by
  constructor
  · rw [enableInterrupt_ACSR]
    simp only [testBit_setMask_bit]
    simp [hE]
  · rw [enableInterrupt_SREG]
    simp only [testBit_setMask_bit]
    simp [hI]

theorem enableInterrupt_enables_witness :
    atmega328p.ACIE < 8 ∧ atmega328p.SREG_I < 8 ∧
      (enableInterrupt atmega328p 7 3 reset).ACSR.testBit atmega328p.ACIE = true ∧
      (enableInterrupt atmega328p 7 3 reset).SREG.testBit atmega328p.SREG_I = true :=
  ⟨by decide, by decide, enableInterrupt_enables atmega328p 7 3 reset (by decide) (by decide)⟩

/-- C17: on the ATmega328P after reset, `setOn(AIN0, AIN1)` succeeds and leaves
the bits `AIN1D` and `AIN0D` of `DIDR1` clear (it writes `DIDR1 &= ~mask`), and
the following `setOff` sets them (`DIDR1 |= mask`, `DIDR1 = 0x03`): the reverse
of disabling the digital input buffers at `setOn` and enabling them again at
`setOff`. -/
theorem setOn_clears_setOff_sets_DIDR1 :
    reset._initialized = 0 ∧
      (setOn atmega328p atmega328p.AIN0 atmega328p.AIN1 false reset).1 = 0 ∧
      configured.DIDR1.testBit atmega328p.AIN0D = false ∧
      configured.DIDR1.testBit atmega328p.AIN1D = false ∧
      (setOn atmega328p atmega328p.AIN0 atmega328p.AIN1 false switchedOff).2.DIDR1 = 0 ∧
      (setOff atmega328p configured).DIDR1 = 0x03 ∧
      (setOff atmega328p configured).DIDR1.testBit atmega328p.AIN0D = true ∧
      (setOff atmega328p configured).DIDR1.testBit atmega328p.AIN1D = true := by
  decide

/-- C18: on the ATmega328P, `setOn(AIN0, AIN1, true)` succeeds and sets the
redirect flag, and leaves the bit `ACIC` of `ACSR` clear: it writes
`ACSR &= ~(1<<ACIC)`, also when `ACIC` was set before the call. -/
theorem setOn_redirect_clears_ACIC :
    reset._initialized = 0 ∧
      (setOn atmega328p atmega328p.AIN0 atmega328p.AIN1 true reset).1 = 0 ∧
      (setOn atmega328p atmega328p.AIN0 atmega328p.AIN1 true reset).2.redirectTC1 = true ∧
      (setOn atmega328p atmega328p.AIN0 atmega328p.AIN1 true reset).2.ACSR.testBit
        atmega328p.ACIC = false ∧
      (setOn atmega328p atmega328p.AIN0 atmega328p.AIN1 true { reset with ACSR := 0x04 }).2.ACSR =
        0 := by
  decide

/-- C19 as stated fails: on the ATmega32U4, `setOn(AIN0, AIN1)` with the
dedicated pin `AIN1 = 255`, which is not below `NUM_ANALOG_INPUTS`, sets `ACME`,
clears `ADEN` in `ADCSRA` and overwrites `oldADCSRA`: the family replaces `AIN1`
by channel 0. -/
theorem setOn_AIN1_on_atmega32u4 :
    arduinoStart._initialized = 0 ∧ atmega32u4.NUM_ANALOG_INPUTS ≤ atmega32u4.AIN1 ∧
      (setOn atmega32u4 atmega32u4.AIN0 atmega32u4.AIN1 false arduinoStart).1 = 0 ∧
      (setOn atmega32u4 atmega32u4.AIN0 atmega32u4.AIN1 false arduinoStart).2.AC_REGISTER.testBit
        atmega32u4.ACME = true ∧
      (setOn atmega32u4 atmega32u4.AIN0 atmega32u4.AIN1 false arduinoStart).2.ADCSRA = 0x07 ∧
      arduinoStart.ADCSRA = 0x87 ∧
      (setOn atmega32u4 atmega32u4.AIN0 atmega32u4.AIN1 false arduinoStart).2.oldADCSRA = 0x87 ∧
      arduinoStart.oldADCSRA = 0 := by
  decide

/-- C19, amended: in an Uninitialized state, on a family with a converter and for
a negative input `ch` that the family does not replace (`ATMEGAxU` replaces
`AIN1` by channel 0): if `ch < NUM_ANALOG_INPUTS <= 32`, after `setOn` the
snapshot `oldADCSRA` is the prior `ADCSRA`, `ADCSRA` is the prior one with only
`ADEN` cleared, the low five bits of `ADMUX` are `ch`, its upper three bits are
unchanged and `ACME` is set; if `ch >= NUM_ANALOG_INPUTS`, `ACME` is clear and
`ADCSRA`, `ADMUX` and `oldADCSRA` are unchanged. `ACME` is a bit of an 8-bit
register. -/
theorem setOn_negative_input (b : Build) (a0 ch : Nat) (tc : Bool) (s : State)
    (hs : s._initialized = 0) (hf : b.family ≠ Family.ATTINYx313)
    (hU : ¬(b.family = Family.ATMEGAxU ∧ ch = b.AIN1)) (hN : b.NUM_ANALOG_INPUTS ≤ 32)
    (hM : b.ACME < 8) :
    (ch < b.NUM_ANALOG_INPUTS →
        (setOn b a0 ch tc s).2.oldADCSRA = s.ADCSRA ∧
          (setOn b a0 ch tc s).2.ADCSRA.testBit b.ADEN = false ∧
          (∀ i, i < 8 → i ≠ b.ADEN →
            (setOn b a0 ch tc s).2.ADCSRA.testBit i = s.ADCSRA.testBit i) ∧
          (setOn b a0 ch tc s).2.ADMUX % 32 = ch ∧
          (∀ i, 5 ≤ i → i < 8 → (setOn b a0 ch tc s).2.ADMUX.testBit i = s.ADMUX.testBit i) ∧
          (setOn b a0 ch tc s).2.AC_REGISTER.testBit b.ACME = true) ∧
      (b.NUM_ANALOG_INPUTS ≤ ch →
        (setOn b a0 ch tc s).2.AC_REGISTER.testBit b.ACME = false ∧
          (setOn b a0 ch tc s).2.ADCSRA = s.ADCSRA ∧
          (setOn b a0 ch tc s).2.ADMUX = s.ADMUX ∧
          (setOn b a0 ch tc s).2.oldADCSRA = s.oldADCSRA) := by
  obtain ⟨hA, hO, hX, hR⟩ := setOn_converter b a0 ch tc s hs hf hU
  constructor
  · intro hlt
    have h32 : ch < 32 := Nat.lt_of_lt_of_le hlt hN
    rw [hA, hO, hX, hR, if_pos hlt, if_pos hlt, if_pos hlt, if_pos hlt]
    refine ⟨rfl, ?_, ?_, ?_, ?_, ?_⟩
    · simp only [testBit_clearMask_bit]
      simp
    · intro i h8 hne
      simp only [testBit_clearMask_bit]
      simp [h8, Ne.symm hne]
    · apply Nat.eq_of_testBit_eq
      intro i
      have h5 : (32 : Nat) = 2 ^ 5 := by norm_num
      rw [h5, Nat.testBit_mod_two_pow, testBit_setMask, testBit_clearMask, testBit_31]
      by_cases hi : i < 5
      · have h8 : i < 8 := by omega
        simp [hi, h8]
      · simp [hi, testBit_of_lt_32 ch i h32 (by omega)]
    · intro i h5 h8
      rw [testBit_setMask, testBit_clearMask, testBit_31, testBit_of_lt_32 ch i h32 h5]
      simp [h8, Nat.not_lt.mpr h5]
    · simp only [testBit_setMask_bit]
      simp [hM]
  · intro hge
    have hlt : ¬ch < b.NUM_ANALOG_INPUTS := Nat.not_lt.mpr hge
    rw [hA, hO, hX, hR, if_neg hlt, if_neg hlt, if_neg hlt, if_neg hlt]
    refine ⟨?_, rfl, rfl, rfl⟩
    simp only [testBit_clearMask_bit]
    simp

theorem setOn_negative_input_witness :
    arduinoStart._initialized = 0 ∧ atmega328p.family ≠ Family.ATTINYx313 ∧
      atmega328p.NUM_ANALOG_INPUTS ≤ 32 ∧ atmega328p.ACME < 8 ∧
      ((setOn atmega328p 0 2 false arduinoStart).2.oldADCSRA = arduinoStart.ADCSRA ∧
        (setOn atmega328p 0 2 false arduinoStart).2.ADCSRA.testBit atmega328p.ADEN = false ∧
        (∀ i, i < 8 → i ≠ atmega328p.ADEN →
          (setOn atmega328p 0 2 false arduinoStart).2.ADCSRA.testBit i =
            arduinoStart.ADCSRA.testBit i) ∧
        (setOn atmega328p 0 2 false arduinoStart).2.ADMUX % 32 = 2 ∧
        (∀ i, 5 ≤ i → i < 8 →
          (setOn atmega328p 0 2 false arduinoStart).2.ADMUX.testBit i =
            arduinoStart.ADMUX.testBit i) ∧
        (setOn atmega328p 0 2 false arduinoStart).2.AC_REGISTER.testBit atmega328p.ACME = true) ∧
      ((setOn atmega328p 0 255 false arduinoStart).2.AC_REGISTER.testBit atmega328p.ACME = false ∧
        (setOn atmega328p 0 255 false arduinoStart).2.ADCSRA = arduinoStart.ADCSRA ∧
        (setOn atmega328p 0 255 false arduinoStart).2.ADMUX = arduinoStart.ADMUX ∧
        (setOn atmega328p 0 255 false arduinoStart).2.oldADCSRA = arduinoStart.oldADCSRA) :=
  ⟨rfl, by decide, by decide, by decide,
    (setOn_negative_input atmega328p 0 2 false arduinoStart rfl (by decide) (by decide)
      (by decide) (by decide)).1 (by decide),
    (setOn_negative_input atmega328p 0 255 false arduinoStart rfl (by decide) (by decide)
      (by decide) (by decide)).2 (by decide)⟩

/-- C20: from a state with both flags 0 and `ACIE` clear, every sequence of
`setOn`, `enableInterrupt`, `disableInterrupt`, `waitComp` and `setOff` (and
interrupt dispatch) leads to a state where `_interruptEnabled != 0` exactly when
`ACIE` is set in `ACSR`. So `waitComp` returns without polling when `ACIE` is
set, and `ACIE` is clear when `enableInterrupt` stores the handler. The bit
number `ACIE` is below 8 and differs from `ACD` and `ACBG`. -/
theorem flag_matches_ACIE (b : Build) (s0 s : State) (ops : List Op) (t : Nat) (env : Env)
    (hE : b.ACIE < 8) (hD : b.ACIE ≠ b.ACD) (hBG : b.ACIE ≠ b.ACBG)
    (_hi : s0._initialized = 0) (he : s0._interruptEnabled = 0)
    (hA : s0.ACSR.testBit b.ACIE = false) (h : run b s0 ops = some s) :
    (s._interruptEnabled ≠ 0 ↔ s.ACSR.testBit b.ACIE = true) ∧
      (s.ACSR.testBit b.ACIE = true → waitComp b t s env = some (0, s, env)) ∧
      (enableInterrupt.auto b (enableInterrupt.mask b s)).ACSR.testBit b.ACIE = false := by
  have h0 : s0._interruptEnabled ≠ 0 ↔ s0.ACSR.testBit b.ACIE = true := by
    rw [he, hA]; simp
  obtain ⟨hinv, hflag⟩ :=
    run_flag_ACIE b ops hE hD hBG s0 s (fun hne => absurd he hne) h0 h
  exact ⟨hflag, fun hb => waitComp_of_interruptEnabled b t s env (hflag.mpr hb),
    enableInterrupt_store_ACIE b s hBG hinv hflag⟩

theorem flag_matches_ACIE_witness :
    atmega328p.ACIE < 8 ∧ atmega328p.ACIE ≠ atmega328p.ACD ∧ atmega328p.ACIE ≠ atmega328p.ACBG ∧
      reset._initialized = 0 ∧ reset._interruptEnabled = 0 ∧
      reset.ACSR.testBit atmega328p.ACIE = false ∧
      run atmega328p reset sampleOps = some sampleFinal ∧
      ((sampleFinal._interruptEnabled ≠ 0 ↔ sampleFinal.ACSR.testBit atmega328p.ACIE = true) ∧
        (sampleFinal.ACSR.testBit atmega328p.ACIE = true →
          waitComp atmega328p 1000 sampleFinal quietEnv = some (0, sampleFinal, quietEnv)) ∧
        (enableInterrupt.auto atmega328p (enableInterrupt.mask atmega328p sampleFinal)).ACSR.testBit
          atmega328p.ACIE = false) :=
  ⟨by decide, by decide, by decide, rfl, rfl, by decide, by decide,
    flag_matches_ACIE atmega328p reset sampleFinal sampleOps 1000 quietEnv (by decide) (by decide)
      (by decide) rfl rfl (by decide) (by decide)⟩

end AnalogComp
